import Mathlib

set_option maxRecDepth 20000

/-!
Shallow embedding of the Model Discovery & Context Cache Engine of the
PBIMcpWebAPP repository, translated from:

  * src/pbi_mcp_finance/config/dynamic_measures.py
  * src/pbi_mcp_finance/config/model_schema.py
  * src/pbi_mcp_finance/config/constants.py
  * src/pbi_mcp_finance/context/builder.py

Modelling conventions, stated once:

  * Python `str` is modelled by Lean `String`; `str.lower`, the substring
    test `pat in hay`, `str.endswith`, `str.startswith` and `str.title`
    are implemented below on the character list of the string (the data
    the source handles is ASCII apart from a few fixed `∆` characters,
    which the case functions leave untouched, exactly as Python does).
  * Python floats are modelled by `ℚ`.  Every numeric constant in the
    embedded code is a decimal literal and every operation on them is a
    sum, difference or product of decimals, so exact rational arithmetic
    is the intended reading of the source.
  * `datetime.now()` is modelled by an explicit clock parameter: a `ℚ`
    measured in hours where the code does timestamp arithmetic (24-hour
    TTLs) and an opaque `String` where the code merely embeds
    `isoformat()` output into a document.
  * Python dicts that are used as insertion-ordered maps are modelled by
    association lists with an insert-or-overwrite operation.
  * Exceptions are modelled with `Except`; a caught exception is an
    `.error` branch of the corresponding match.  Remote calls made by a
    discovery run are additionally recorded in an explicit trace, and
    `mcp_logger.info/warning/error` calls are recorded as log events
    (the static text of each message is kept; interpolated values and
    `debug`-level messages are omitted as pure telemetry).
-/

/-! ### Python string primitives -/

/-- ASCII lower-casing of one character (Python `str.lower` on the data
the engine handles). -/
def lowerChar (c : Char) : Char :=
  if 'A' ≤ c ∧ c ≤ 'Z' then Char.ofNat (c.toNat + 32) else c

/-- ASCII upper-casing of one character. -/
def upperChar (c : Char) : Char :=
  if 'a' ≤ c ∧ c ≤ 'z' then Char.ofNat (c.toNat - 32) else c

/-- Python `s.lower()`. -/
def pyLower (s : String) : String :=
  ⟨s.data.map lowerChar⟩

/-- `charsPrefixAt p s` is true when the character list `p` occurs at the
front of `s`. -/
def charsPrefixAt : List Char → List Char → Bool
  | [], _ => true
  | _ :: _, [] => false
  | p :: ps, c :: cs => p == c && charsPrefixAt ps cs

/-- `charsHasSub pat hay` is true when `pat` occurs contiguously inside
`hay` (Python `pat in hay` on strings). -/
def charsHasSub (pat : List Char) : List Char → Bool
  | [] => pat.isEmpty
  | c :: cs => charsPrefixAt pat (c :: cs) || charsHasSub pat cs

/-- Python `pat in hay` for strings. -/
def inStr (pat hay : String) : Bool :=
  charsHasSub pat.data hay.data

/-- Python `hay.endswith pat`. -/
def pyEndsWith (hay pat : String) : Bool :=
  charsPrefixAt pat.data.reverse hay.data.reverse

/-- Python `hay.startswith pat`. -/
def pyStartsWith (hay pat : String) : Bool :=
  charsPrefixAt pat.data hay.data

/-- Is `c` an ASCII letter? -/
def isAsciiAlpha (c : Char) : Bool :=
  ('a' ≤ c && c ≤ 'z') || ('A' ≤ c && c ≤ 'Z')

/-- Helper for `pyTitle`: the boolean records whether the previous
character was a letter. -/
def titleAux : Bool → List Char → List Char
  | _, [] => []
  | prevAlpha, c :: t =>
    let c' := if isAsciiAlpha c then (if prevAlpha then lowerChar c else upperChar c) else c
    c' :: titleAux (isAsciiAlpha c) t

/-- Python `s.title()` (restricted to ASCII casing, which covers every
string the source applies it to). -/
def pyTitle (s : String) : String :=
  ⟨titleAux false s.data⟩

/-! ### Insertion-ordered dictionaries (Python `dict`) -/

/-- Lookup in an association list (Python `d.get(k)` / `k in d`). -/
def alistLookup {α : Type} : List (String × α) → String → Option α
  | [], _ => none
  | (k', v) :: t, k => if k' = k then some v else alistLookup t k

/-- Python `d[k] = v`: overwrite in place if the key exists, else append,
preserving insertion order. -/
def alistInsert {α : Type} : List (String × α) → String → α → List (String × α)
  | [], k, v => [(k, v)]
  | (k', v') :: t, k, v => if k' = k then (k, v) :: t else (k', v') :: alistInsert t k v

/-- The keys of an association list, in order. -/
def alistKeys {α : Type} (l : List (String × α)) : List String :=
  l.map Prod.fst

/-! ### `dynamic_measures.py`: DiscoveredMeasure and the categorizer -/

/-- `DiscoveredMeasure` (dynamic_measures.py lines 20-31). -/
structure DiscoveredMeasure where
  name : String
  formula : String
  category : String
  confidence : ℚ
  aliases : List String
deriving DecidableEq, Repr

/-- `DynamicMeasureManager._categorize_measure` (dynamic_measures.py
lines 105-148), translated branch for branch.  The second argument is
bound to `formula_lower` in the source and is never read afterwards. -/
def categorizeMeasure (measureName : String) (formula : String) : String × ℚ × List String :=
  let nameLower := pyLower measureName
  let _formulaLower := pyLower formula
  let revenueKeywords := ["revenue", "sales", "income", "turnover", "receipts"]
  if revenueKeywords.any (fun kw => inStr kw nameLower) then
    ("revenue", 0.9, revenueKeywords.filter (fun kw => inStr kw nameLower))
  else if ["profit", "margin", "earnings", "ebitda", "ebit"].any (fun kw => inStr kw nameLower) then
    if inStr "gross" nameLower then ("gross_profit", 0.85, ["gross profit", "gp"])
    else if inStr "ebitda" nameLower then ("ebitda", 0.9, ["ebitda", "operating profit"])
    else if inStr "net" nameLower then ("net_profit", 0.85, ["net profit", "net income"])
    else ("profit", 0.7, [])
  else if ["cash", "liquidity"].any (fun kw => inStr kw nameLower) then
    ("cash", 0.85, ["cash", "liquidity"])
  else if ["asset", "assets"].any (fun kw => inStr kw nameLower) then
    if inStr "total" nameLower then ("total_assets", 0.8, ["total assets"])
    else if inStr "fixed" nameLower || inStr "ppe" nameLower then
      ("fixed_assets", 0.8, ["fixed assets", "ppe"])
    else ("assets", 0.6, [])
  else if inStr "working capital" nameLower || inStr "wc" nameLower then
    ("working_capital", 0.9, ["working capital", "wc"])
  else if ["debt", "liabilities"].any (fun kw => inStr kw nameLower) then
    ("net_debt", 0.7, ["debt", "liabilities"])
  else if ["equity", "shareholders"].any (fun kw => inStr kw nameLower) then
    ("equity", 0.8, ["equity", "shareholders equity"])
  else
    ("unknown", 0.1, [])

/-- The disjunction of all keyword-branch guards of `categorizeMeasure`
(on the lower-cased name), used to state "no keyword branch matches". -/
def anyCategorizeBranchMatches (measureName : String) : Bool :=
  let nameLower := pyLower measureName
  ["revenue", "sales", "income", "turnover", "receipts"].any (fun kw => inStr kw nameLower)
  || ["profit", "margin", "earnings", "ebitda", "ebit"].any (fun kw => inStr kw nameLower)
  || ["cash", "liquidity"].any (fun kw => inStr kw nameLower)
  || ["asset", "assets"].any (fun kw => inStr kw nameLower)
  || (inStr "working capital" nameLower || inStr "wc" nameLower)
  || ["debt", "liabilities"].any (fun kw => inStr kw nameLower)
  || ["equity", "shareholders"].any (fun kw => inStr kw nameLower)

/-! ### `constants.py`: the static fallback table -/

/-- `FINANCIAL_MEASURES` (constants.py lines 64-212): generic name to the
`'dax'` field of each entry.  The embedded operations read only the
`'dax'` field of the table, so the other fields (description, type,
statement, aliases) are not carried. -/
def financialMeasuresDax : List (String × String) :=
  [("revenue", "[Revenue]"),
   ("revenue_py", "[Rev PY]"),
   ("revenue_growth", "[∆Rev PY%]"),
   ("gross_profit", "[Gross Profit]"),
   ("gross_profit_pct", "[Gross Profit %]"),
   ("ebitda", "[EBITDA]"),
   ("ebitda_pct", "[EBITDA %]"),
   ("net_profit", "[Profit Net]"),
   ("cash", "[Cash]"),
   ("working_capital", "[Working Capital]"),
   ("net_debt", "[Net Debt]"),
   ("total_assets", "[Total Assets]"),
   ("equity", "[Equity]"),
   ("fixed_assets", "[Fixed Assets]"),
   ("amount_py", "[Amt PY]"),
   ("delta_py", "[∆Amt PY]"),
   ("delta_py_pct", "[∆Amt PY%]"),
   ("budget", "[Bdgt]"),
   ("delta_budget", "[∆Bdgt]"),
   ("delta_budget_pct", "[∆Bdgt%]"),
   ("forecast", "[Fcst]"),
   ("overhead", "[Overhead]"),
   ("overhead_pct", "[Overhead %]")]

/-! ### `dynamic_measures.py`: manager state and measure mapping -/

/-- The mutable state of `DynamicMeasureManager`: the in-memory discovered
measure cache `_cached_measures` (an insertion-ordered dict), the custom
mapping dict `_measure_mappings`, and `_last_discovery`. -/
structure MeasureMgrState where
  cachedMeasures : List (String × DiscoveredMeasure)
  measureMappings : List (String × String)
  lastDiscovery : Option ℚ
deriving DecidableEq, Repr

/-- `DynamicMeasureManager.get_measure_mapping` (dynamic_measures.py
lines 330-351): (1) custom mappings, (2) first cached measure whose
category equals the generic name with confidence above 0.6, (3) first
cached measure one of whose aliases occurs in the lower-cased generic
name, (4) the `'dax'` entry of the static fallback table (every entry of
that table has a `'dax'` field, so the `.get` default is unreachable). -/
def getMeasureMapping (st : MeasureMgrState) (genericName : String) : Option String :=
  match alistLookup st.measureMappings genericName with
  | some v => some v
  | none =>
    match st.cachedMeasures.find? (fun p =>
        p.2.category == genericName && decide ((0.6 : ℚ) < p.2.confidence)) with
    | some p => some p.2.name
    | none =>
      match st.cachedMeasures.find? (fun p =>
          p.2.aliases.any (fun a => inStr a (pyLower genericName))) with
      | some p => some p.2.name
      | none => alistLookup financialMeasuresDax genericName

/-- `DynamicMeasureManager.get_all_discovered_measures` (lines 353-355). -/
def getAllDiscoveredMeasures (st : MeasureMgrState) : List (String × DiscoveredMeasure) :=
  st.cachedMeasures

/-- `DynamicMeasureManager.get_high_confidence_measures` with its default
threshold `min_confidence = 0.7` (lines 364-369). -/
def getHighConfidenceMeasures (st : MeasureMgrState) : List (String × DiscoveredMeasure) :=
  st.cachedMeasures.filter (fun p => decide ((0.7 : ℚ) ≤ p.2.confidence))

/-- `DynamicMeasureManager.get_revenue_measures` (lines 357-362). -/
def getRevenueMeasures (st : MeasureMgrState) : List String :=
  ((st.cachedMeasures.map Prod.snd).filter (fun m =>
    ["revenue"].contains m.category || inStr "revenue" (pyLower m.name))).map (·.name)

/-- `DynamicMeasureManager.save_custom_mapping` (lines 402-414): an
unconditional overwrite of the mapping dict (the persisted file mirrors
the in-memory dict). -/
def saveCustomMapping (st : MeasureMgrState) (genericName actualMeasureName : String) :
    MeasureMgrState :=
  { st with measureMappings := alistInsert st.measureMappings genericName actualMeasureName }

/-! ### Tail-recursive list helpers

Long byte and character lists are processed below with accumulator-based
recursion so that evaluation inside the kernel is iterative. -/

/-- `revAppend l acc` is `l.reverse ++ acc`, tail-recursively. -/
def revAppend {α : Type} : List α → List α → List α
  | [], acc => acc
  | x :: t, acc => revAppend t (x :: acc)

/-- Tail-recursive map helper: accumulates the mapped list reversed. -/
def mapRevAcc {α β : Type} (f : α → β) : List α → List β → List β
  | [], acc => acc
  | x :: t, acc => mapRevAcc f t (f x :: acc)

/-- Tail-recursive `List.map`. -/
def mapT {α β : Type} (f : α → β) (l : List α) : List β :=
  revAppend (mapRevAcc f l []) []

/-- Tail-recursive `List.length`. -/
def lengthAcc {α : Type} : List α → Nat → Nat
  | [], n => n
  | _ :: t, n => lengthAcc t (n + 1)

/-! ### MD5 (`hashlib.md5(...).hexdigest()` in `builder._get_content_hash`)

The reference algorithm of RFC 1321 on byte lists, with 32-bit words
modelled as `Nat` reduced modulo `2^32`. -/

/-- All-ones 32-bit word. -/
def w32mask : Nat := 4294967295

/-- 32-bit modular addition. -/
def add32 (a b : Nat) : Nat := (a + b) % 4294967296

/-- 32-bit bitwise complement. -/
def not32 (a : Nat) : Nat := Nat.xor a w32mask

/-- 32-bit left rotation (the operand is a 32-bit word). -/
def rotl32 (x s : Nat) : Nat :=
  Nat.lor ((x <<< s) % 4294967296) (x >>> (32 - s))

/-- The 64 sine-derived MD5 round constants of RFC 1321. -/
def md5K : List Nat :=
  [0xd76aa478, 0xe8c7b756, 0x242070db, 0xc1bdceee,
   0xf57c0faf, 0x4787c62a, 0xa8304613, 0xfd469501,
   0x698098d8, 0x8b44f7af, 0xffff5bb1, 0x895cd7be,
   0x6b901122, 0xfd987193, 0xa679438e, 0x49b40821,
   0xf61e2562, 0xc040b340, 0x265e5a51, 0xe9b6c7aa,
   0xd62f105d, 0x02441453, 0xd8a1e681, 0xe7d3fbc8,
   0x21e1cde6, 0xc33707d6, 0xf4d50d87, 0x455a14ed,
   0xa9e3e905, 0xfcefa3f8, 0x676f02d9, 0x8d2a4c8a,
   0xfffa3942, 0x8771f681, 0x6d9d6122, 0xfde5380c,
   0xa4beea44, 0x4bdecfa9, 0xf6bb4b60, 0xbebfbc70,
   0x289b7ec6, 0xeaa127fa, 0xd4ef3085, 0x04881d05,
   0xd9d4d039, 0xe6db99e5, 0x1fa27cf8, 0xc4ac5665,
   0xf4292244, 0x432aff97, 0xab9423a7, 0xfc93a039,
   0x655b59c3, 0x8f0ccc92, 0xffeff47d, 0x85845dd1,
   0x6fa87e4f, 0xfe2ce6e0, 0xa3014314, 0x4e0811a1,
   0xf7537e82, 0xbd3af235, 0x2ad7d2bb, 0xeb86d391]

/-- The 64 per-round left-rotation amounts of RFC 1321. -/
def md5S : List Nat :=
  [7, 12, 17, 22, 7, 12, 17, 22, 7, 12, 17, 22, 7, 12, 17, 22,
   5,  9, 14, 20, 5,  9, 14, 20, 5,  9, 14, 20, 5,  9, 14, 20,
   4, 11, 16, 23, 4, 11, 16, 23, 4, 11, 16, 23, 4, 11, 16, 23,
   6, 10, 15, 21, 6, 10, 15, 21, 6, 10, 15, 21, 6, 10, 15, 21]

/-- Number of zero padding bytes for a message of `len` bytes. -/
def md5PadLen (len : Nat) : Nat := (119 - len % 64) % 64

/-- MD5 padding: a `0x80` byte, zeros to 56 mod 64, then the bit length
as eight little-endian bytes. -/
def md5Pad (msg : List Nat) : List Nat :=
  let len := lengthAcc msg 0
  let bitLen := len * 8
  msg ++ [128] ++ List.replicate (md5PadLen len) 0
      ++ (List.range 8).map (fun i => (bitLen >>> (8 * i)) % 256)

/-- Split a padded message into 64-byte blocks. -/
def md5BlocksAux : List Nat → List Nat → Nat → List (List Nat)
  | [], _, _ => []
  | b :: t, cur, n =>
    if n = 63 then revAppend (b :: cur) [] :: md5BlocksAux t [] 0
    else md5BlocksAux t (b :: cur) (n + 1)

/-- Little-endian 32-bit word `j` of a 64-byte block. -/
def md5Word (block : List Nat) (j : Nat) : Nat :=
  block.getD (4 * j) 0 + 256 * block.getD (4 * j + 1) 0
    + 65536 * block.getD (4 * j + 2) 0 + 16777216 * block.getD (4 * j + 3) 0

/-- The four MD5 round functions F, G, H, I, selected by round index. -/
def md5Mix (i b c d : Nat) : Nat :=
  if i < 16 then Nat.lor (Nat.land b c) (Nat.land (not32 b) d)
  else if i < 32 then Nat.lor (Nat.land d b) (Nat.land (not32 d) c)
  else if i < 48 then Nat.xor (Nat.xor b c) d
  else Nat.xor c (Nat.lor b (not32 d))

/-- The message-word schedule of RFC 1321. -/
def md5MsgIndex (i : Nat) : Nat :=
  if i < 16 then i
  else if i < 32 then (5 * i + 1) % 16
  else if i < 48 then (3 * i + 5) % 16
  else (7 * i) % 16

/-- One MD5 round on the state `(a, b, c, d)`. -/
def md5Step (block : List Nat) (st : Nat × Nat × Nat × Nat) (i : Nat) : Nat × Nat × Nat × Nat :=
  let (a, b, c, d) := st
  let f := add32 (add32 (add32 a (md5Mix i b c d)) (md5K.getD i 0)) (md5Word block (md5MsgIndex i))
  (d, add32 b (rotl32 f (md5S.getD i 0)), b, c)

/-- Process one 64-byte block: 64 rounds, then add the previous state. -/
def md5Block (st : Nat × Nat × Nat × Nat) (block : List Nat) : Nat × Nat × Nat × Nat :=
  let (a0, b0, c0, d0) := st
  let (a, b, c, d) := (List.range 64).foldl (md5Step block) (a0, b0, c0, d0)
  (add32 a0 a, add32 b0 b, add32 c0 c, add32 d0 d)

/-- A lowercase hexadecimal digit. -/
def hexDigit (n : Nat) : Char :=
  if n < 10 then Char.ofNat (48 + n) else Char.ofNat (87 + n)

/-- Two lowercase hex digits of one byte. -/
def byteHex (n : Nat) : List Char :=
  [hexDigit (n / 16 % 16), hexDigit (n % 16)]

/-- A 32-bit word rendered as eight hex digits, little-endian bytewise. -/
def wordLEHex (w : Nat) : List Char :=
  byteHex (w % 256) ++ byteHex (w >>> 8 % 256) ++ byteHex (w >>> 16 % 256)
    ++ byteHex (w >>> 24 % 256)

/-- MD5 hexdigest of a byte list. -/
def md5Bytes (msg : List Nat) : String :=
  let padded := md5Pad msg
  let blocks := md5BlocksAux padded [] 0
  let (a, b, c, d) := blocks.foldl md5Block (0x67452301, 0xefcdab89, 0x98badcfe, 0x10325476)
  ⟨wordLEHex a ++ wordLEHex b ++ wordLEHex c ++ wordLEHex d⟩

/-- `hashlib.md5(s.encode()).hexdigest()` for an ASCII string `s` (the
only strings hashed by the builder are `json.dumps(..., ensure_ascii
defaulting to True)` outputs, whose UTF-8 encoding is the identity on
the character codes). -/
def md5Hex (s : String) : String :=
  md5Bytes (mapT Char.toNat s.data)

/-! ### JSON documents and `json.dumps(..., sort_keys=True)`

`builder.py` hashes and stores context documents via
`json.dumps(data, sort_keys=True, default=str)`.  The document values
produced by the builder are strings, ints, floats, lists and dicts, so
the AST below carries exactly those shapes. -/

/-- A JSON document as produced by the context builder. -/
inductive Json where
  | str (s : String)
  | int (n : ℤ)
  | rat (q : ℚ)
  | arr (xs : List Json)
  | obj (fields : List (String × Json))

/-- Decimal digits of a natural number (fuel-based). -/
def natToDecAux : Nat → Nat → List Char
  | 0, _ => []
  | fuel + 1, n => if n < 10 then [hexDigit n] else natToDecAux fuel (n / 10) ++ [hexDigit (n % 10)]

/-- Decimal rendering of a natural number. -/
def natToDec (n : Nat) : String := ⟨natToDecAux (n + 1) n⟩

/-- Decimal rendering of an integer (Python `int` in JSON output). -/
def intToDec (i : ℤ) : String :=
  if i < 0 then "-" ++ natToDec (-i).toNat else natToDec i.toNat

/-- Fractional decimal digits of `0 ≤ f < 1`, fuel-bounded.  Every float
the builder stores is an exact decimal (the fixed classifier confidence
constants), so the fuel is never exhausted on reachable documents. -/
def ratFracDigits : Nat → ℚ → List Char
  | 0, _ => []
  | fuel + 1, f =>
    if f = 0 then []
    else
      let f10 := f * 10
      hexDigit (⌊f10⌋.toNat % 10) :: ratFracDigits fuel (f10 - ⌊f10⌋)

/-- Python `repr` of a float holding an exact decimal value, as emitted
by `json.dumps` (e.g. `0.9`, `1.0`). -/
def ratToRepr (q : ℚ) : String :=
  (if q < 0 then "-" else "") ++ natToDec ⌊|q|⌋.toNat ++ "."
    ++ (let ds := ratFracDigits 20 (|q| - ⌊|q|⌋); if ds.isEmpty then "0" else ⟨ds⟩)

/-- Four lowercase hex digits (for `\uXXXX` escapes). -/
def hex4 (n : Nat) : List Char :=
  [hexDigit (n / 4096 % 16), hexDigit (n / 256 % 16), hexDigit (n / 16 % 16), hexDigit (n % 16)]

/-- `json.dumps` escaping of one character with its default
`ensure_ascii=True`: printable ASCII passes through, `"` and `\` and the
short control escapes are backslashed, every other character becomes
`\uXXXX` (with a surrogate pair above the BMP). -/
def escChar (c : Char) : List Char :=
  if c = '"' then ['\\', '"']
  else if c = '\\' then ['\\', '\\']
  else if c = Char.ofNat 10 then ['\\', 'n']
  else if c = Char.ofNat 9 then ['\\', 't']
  else if c = Char.ofNat 13 then ['\\', 'r']
  else if c = Char.ofNat 8 then ['\\', 'b']
  else if c = Char.ofNat 12 then ['\\', 'f']
  else if 32 ≤ c.toNat ∧ c.toNat ≤ 126 then [c]
  else if c.toNat < 65536 then '\\' :: 'u' :: hex4 c.toNat
  else
    let n := c.toNat - 65536
    '\\' :: 'u' :: hex4 (55296 + n / 1024) ++ '\\' :: 'u' :: hex4 (56320 + n % 1024)

/-- Escape a whole character list. -/
def escAll : List Char → List Char
  | [] => []
  | c :: t => escChar c ++ escAll t

/-- A JSON string literal: quotes around the escaped characters. -/
def quoteChars (s : String) : List Char :=
  '"' :: escAll s.data ++ ['"']

/-- Python string `<` (code-point lexicographic), as used by
`sort_keys=True`. -/
def strLtChars : List Char → List Char → Bool
  | [], [] => false
  | [], _ :: _ => true
  | _ :: _, [] => false
  | a :: as, b :: bs =>
    if a.toNat < b.toNat then true
    else if b.toNat < a.toNat then false
    else strLtChars as bs

/-- Insert a field into a key-sorted field list. -/
def insertByKey (x : String × Json) : List (String × Json) → List (String × Json)
  | [] => [x]
  | y :: t => if strLtChars x.1.data y.1.data then x :: y :: t else y :: insertByKey x t

/-- Sort an object's fields by key (insertion sort; the builder's
objects have pairwise distinct keys). -/
def sortByKey : List (String × Json) → List (String × Json)
  | [] => []
  | x :: t => insertByKey x (sortByKey t)

/-- Join rendered items with a separator. -/
def joinSep (sep : List Char) : List (List Char) → List Char
  | [] => []
  | [x] => x
  | x :: y :: t => x ++ sep ++ joinSep sep (y :: t)

/-- `json.dumps(j, sort_keys=True)` with the default separators
`(', ', ': ')` and `ensure_ascii=True`, fuel-bounded on nesting depth
(the builder's documents nest fewer than ten levels). -/
def dumpsAux : Nat → Json → List Char
  | 0, _ => []
  | _ + 1, .str s => quoteChars s
  | _ + 1, .int n => (intToDec n).data
  | _ + 1, .rat q => (ratToRepr q).data
  | fuel + 1, .arr xs =>
    '[' :: joinSep [',', ' '] (xs.map (dumpsAux fuel)) ++ [']']
  | fuel + 1, .obj fs =>
    Char.ofNat 123 ::
      joinSep [',', ' ']
        ((sortByKey fs).map (fun kv => quoteChars kv.1 ++ ':' :: ' ' :: dumpsAux fuel kv.2))
      ++ [Char.ofNat 125]

/-- `json.dumps(data, sort_keys=True, default=str)` as called by
`PowerBIContextBuilder._get_content_hash` and `_cache_context`. -/
def pyJsonDumpsSorted (j : Json) : String :=
  ⟨dumpsAux 64 j⟩

/-- `PowerBIContextBuilder._get_content_hash` (builder.py lines
363-366). -/
def contentHash (data : Json) : String :=
  md5Hex (pyJsonDumpsSorted data)

/-! ### The Remote Model Query Client (external collaborator)

`powerbi.client.get_powerbi_client()` returns an object with
`get_workspace_by_name`, `get_dataset_by_name` and `execute_dax_query`.
The engine treats it as an opaque environment, so it is modelled as a
record of fallible functions; a raised exception is an `.error`. -/

/-- The `{'id': ..., 'name': ...}` dict returned by workspace lookup. -/
structure WorkspaceInfo where
  id : String
  name : String
deriving DecidableEq, Repr

/-- The `{'id': ..., 'name': ...}` dict returned by dataset lookup. -/
structure DatasetInfo where
  id : String
  name : String
deriving DecidableEq, Repr

/-- A result row: a dict from qualified column name to cell text. -/
abbrev Row := List (String × String)

/-- Python `row.get(key, '')`. -/
def rowGet (row : Row) (key : String) : String :=
  (alistLookup row key).getD ""

/-- The shapes of `execute_dax_query` results that the parsers
distinguish: the custom format (a list of result objects, each with or
without a `'rows'` key), the original format (a dict with a `'results'`
list of result objects, each carrying a `'tables'` list whose tables
may have a `'rows'` key), or a dict without a `'results'` key. -/
inductive DaxResult where
  | listFormat (results : List (Option (List Row)))
  | origFormat (results : List (List (Option (List Row))))
  | other
deriving DecidableEq, Repr

/-- The Remote Model Query Client interface consumed by both discovery
managers. -/
structure PBIClient where
  getWorkspaceByName : String → Except String WorkspaceInfo
  getDatasetByName : String → String → Except String DatasetInfo
  executeDaxQuery : String → String → String → Except String DaxResult

/-- Levels of the `mcp_logger` calls the discovery code makes
(`debug`-level telemetry is not tracked). -/
inductive LogLevel where
  | info
  | warning
  | error
deriving DecidableEq, Repr

/-- One logger call: its level and the static text of its message. -/
structure LogEvent where
  level : LogLevel
  msg : String
deriving DecidableEq, Repr

/-- A remote call issued to the client, as recorded in the trace. -/
inductive RemoteCall where
  | workspaceLookup (name : String)
  | datasetLookup (workspaceId name : String)
  | daxQuery (workspaceId datasetId queryText : String)
deriving DecidableEq, Repr

/-- The measures DAX query of `discover_measures_from_model` (the
surrounding whitespace of the Python triple-quoted literal is not
significant to the client and is dropped). -/
def measuresQueryText : String :=
  "EVALUATE CALCULATETABLE( SELECTCOLUMNS(__def_Measures, [Name], [Description], [DisplayFolder]), NOT(ISBLANK(__def_Measures[Description])) )"

/-- The tables DAX query of both discovery functions. -/
def tablesQueryText : String :=
  "EVALUATE CALCULATETABLE( SELECTCOLUMNS(__def_Tables, [Name], [Description]), NOT(ISBLANK(__def_Tables[Description])) )"

/-- The columns DAX query of both discovery functions. -/
def columnsQueryText : String :=
  "EVALUATE CALCULATETABLE( SELECTCOLUMNS(__def_Columns, [Table], [Name], [Description]), NOT(ISBLANK(__def_Columns[Description])) )"

/-- The relationships DAX query of `discover_measures_from_model`. -/
def relationshipsQueryText : String :=
  "EVALUATE CALCULATETABLE( SELECTCOLUMNS(__def_Relationships, [Relationship]), __def_Relationships[IsActive] = TRUE() )"

/-! ### `discover_measures_from_model` (dynamic_measures.py 150-328) -/

/-- The flat measure cache file (`measure_cache.json`): a top-level
timestamp and the measures map. -/
structure MeasureFileCache where
  timestamp : ℚ
  measures : List (String × DiscoveredMeasure)
deriving DecidableEq, Repr

/-- Everything observable about one `discover_measures_from_model`
call: the returned map, the manager state and cache file afterwards,
the remote calls attempted (in order, including failing ones) and the
info/warning/error log events. -/
structure MeasureDiscoverOut where
  result : List (String × DiscoveredMeasure)
  state : MeasureMgrState
  fileCache : Option MeasureFileCache
  calls : List RemoteCall
  logs : List LogEvent
deriving DecidableEq, Repr

/-- The row loop of `discover_measures_from_model` (lines 223-247 and
its verbatim copy at 262-284): keep a row's measure only when its name
is non-empty and contains the agent-visible marker `"_AI"`, categorize
it on the name plus lower-cased name/description text, and store it
under its name (description doubling as the formula placeholder). -/
def parseMeasureRowStep (acc : List (String × DiscoveredMeasure)) (row : Row) :
    List (String × DiscoveredMeasure) :=
  let measureName := rowGet row "__def_Measures[Name]"
  let description := rowGet row "__def_Measures[Description]"
  if (measureName != "") && inStr "_AI" measureName then
    let combinedText := pyLower (measureName ++ " " ++ description)
    match categorizeMeasure measureName combinedText with
    | (category, confidence, aliases) =>
      alistInsert acc measureName
        ⟨measureName, description, category, confidence, aliases⟩
  else acc

/-- The whole row loop. -/
def parseMeasureRows (rows : List Row) : List (String × DiscoveredMeasure) :=
  rows.foldl parseMeasureRowStep []

/-- The three auxiliary context queries (lines 289-309): executed in
sequence inside one `try`, so the first failure skips the rest and is
absorbed with a non-critical warning. -/
def runAuxMeasureQueries (client : PBIClient) (wsId dsId : String) :
    List RemoteCall × List LogEvent :=
  match client.executeDaxQuery wsId dsId tablesQueryText with
  | .error _ =>
    ([.daxQuery wsId dsId tablesQueryText],
     [⟨.warning, "Additional discovery queries failed (non-critical)"⟩])
  | .ok _ =>
    match client.executeDaxQuery wsId dsId columnsQueryText with
    | .error _ =>
      ([.daxQuery wsId dsId tablesQueryText, .daxQuery wsId dsId columnsQueryText],
       [⟨.warning, "Additional discovery queries failed (non-critical)"⟩])
    | .ok _ =>
      match client.executeDaxQuery wsId dsId relationshipsQueryText with
      | .error _ =>
        ([.daxQuery wsId dsId tablesQueryText, .daxQuery wsId dsId columnsQueryText,
          .daxQuery wsId dsId relationshipsQueryText],
         [⟨.warning, "Additional discovery queries failed (non-critical)"⟩])
      | .ok _ =>
        ([.daxQuery wsId dsId tablesQueryText, .daxQuery wsId dsId columnsQueryText,
          .daxQuery wsId dsId relationshipsQueryText], [])

/-- Parsing of the measures query result (lines 212-286): the custom
list format is tried first, then — only when nothing was parsed — the
original dict format; `none` models a missing `'rows'` key.  The second
component collects the log events of the parse, and the third is true
exactly when the original-format branch dereferences an empty
`'results'` list (an `IndexError`, absorbed by the surrounding
`except`). -/
def parseMeasuresResult (mres : DaxResult) :
    List (String × DiscoveredMeasure) × List LogEvent × Bool :=
  match mres with
  | .listFormat [] =>
    ([], [⟨.warning, "Result is not a list or is empty"⟩,
          ⟨.warning, "Unexpected measures result format"⟩], false)
  | .listFormat (none :: _) =>
    ([], [⟨.warning, "No rows key found in first result"⟩,
          ⟨.warning, "Unexpected measures result format"⟩], false)
  | .listFormat (some rows :: _) =>
    (parseMeasureRows rows,
     [⟨.info, "Found total measures using custom DAX format"⟩,
      ⟨.info, "Successfully parsed AI-enabled measures from custom DAX format"⟩,
      ⟨.warning, "Unexpected measures result format"⟩], false)
  | .origFormat [] =>
    ([], [⟨.warning, "Result is not a list or is empty"⟩], true)
  | .origFormat (firstResult :: _) =>
    match firstResult with
    | [] => ([], [⟨.warning, "Result is not a list or is empty"⟩], false)
    | none :: _ => ([], [⟨.warning, "Result is not a list or is empty"⟩], false)
    | some rows :: _ =>
      (parseMeasureRows rows,
       [⟨.warning, "Result is not a list or is empty"⟩,
        ⟨.info, "Found total measures using original format"⟩], false)
  | .other =>
    ([], [⟨.warning, "Result is not a list or is empty"⟩,
          ⟨.warning, "Unexpected measures result format"⟩], false)

/-- `DynamicMeasureManager.discover_measures_from_model` (lines
150-328).  The cache-or-refresh gate of the original design is disabled
in the source ("Cache disabled - always get fresh measures", lines
158-159), so `forceRefresh` and the caches are never consulted; every
call proceeds straight to the client.  Exceptions raised by the client
are absorbed into an empty result with an error-level log. -/
def discoverMeasuresFromModel (client : PBIClient) (st : MeasureMgrState)
    (fileCache : Option MeasureFileCache) (workspaceName datasetName : String)
    (forceRefresh : Bool) (now : ℚ) : MeasureDiscoverOut :=
  let _ := forceRefresh
  let logs0 : List LogEvent :=
    [⟨.info, "Discovering measures from " ++ workspaceName ++ "/" ++ datasetName⟩]
  match client.getWorkspaceByName workspaceName with
  | .error _ =>
    { result := [], state := st, fileCache := fileCache,
      calls := [.workspaceLookup workspaceName],
      logs := logs0 ++ [⟨.error, "Failed to discover measures"⟩] }
  | .ok workspace =>
    match client.getDatasetByName workspace.id datasetName with
    | .error _ =>
      { result := [], state := st, fileCache := fileCache,
        calls := [.workspaceLookup workspaceName, .datasetLookup workspace.id datasetName],
        logs := logs0 ++ [⟨.error, "Failed to discover measures"⟩] }
    | .ok dataset =>
      let calls0 := [.workspaceLookup workspaceName,
                     .datasetLookup workspace.id datasetName,
                     RemoteCall.daxQuery workspace.id dataset.id measuresQueryText]
      let logs1 := logs0 ++ [⟨.info, "Using new discovery method with 4 DAX queries"⟩]
      match client.executeDaxQuery workspace.id dataset.id measuresQueryText with
      | .error _ =>
        { result := [], state := st, fileCache := fileCache, calls := calls0,
          logs := logs1 ++ [⟨.error, "Failed to discover measures using DAX queries"⟩] }
      | .ok mres =>
        let parsed := parseMeasuresResult mres
        let discovered := parsed.1
        let parseLogs := parsed.2.1
        let indexError := parsed.2.2
        if indexError then
          { result := [], state := st, fileCache := fileCache, calls := calls0,
            logs := logs1 ++ parseLogs
              ++ [⟨.error, "Failed to discover measures using DAX queries"⟩] }
        else
          let aux := runAuxMeasureQueries client workspace.id dataset.id
          { result := discovered,
            state := { cachedMeasures := discovered,
                       measureMappings := st.measureMappings,
                       lastDiscovery := some now },
            fileCache := some ⟨now, discovered⟩,
            calls := calls0 ++ aux.1,
            logs := logs1 ++ parseLogs ++ aux.2
              ++ [⟨.info, "Saved measures to cache"⟩]
              ++ (if discovered.isEmpty then
                    [⟨.warning, "No AI-enabled measures discovered from DAX queries"⟩]
                  else
                    [⟨.info, "Successfully discovered AI-enabled measures using new DAX queries"⟩]) }

/-! ### `model_schema.py`: table schema discovery -/

/-- `TableSchema` (model_schema.py lines 18-29). -/
structure TableSchema where
  name : String
  columns : List String
  relationships : List String
  isFactTable : Bool
  confidence : ℚ
deriving DecidableEq, Repr

/-- The `value_columns` test of `_categorize_table` applied to one
(not yet lower-cased) column name. -/
def valueLikeColumn (col : String) : Bool :=
  ["amount", "value", "quantity", "balance"].any (fun ind => inStr ind (pyLower col))

/-- The identifier test of `_categorize_table` applied to one
lower-cased column name (`col.endswith(' id') or col.endswith('id')`). -/
def idLikeColumn (col : String) : Bool :=
  pyEndsWith col " id" || pyEndsWith col "id"

/-- The `fact_score` accumulation of `_categorize_table`
(model_schema.py lines 95-120), translated statement for statement with
exact rational arithmetic for the decimal score weights. -/
def factScore (tableName : String) (columns : List String) : ℚ :=
  let nameLower := pyLower tableName
  let columnsLower := columns.map pyLower
  let factIndicators := ["journal", "transaction", "entry", "line", "fact"]
  let dimensionIndicators := ["dim", "_date", "_period", "account", "contact", "mapping"]
  let valueColumns := columnsLower.filter (fun col =>
    ["amount", "value", "quantity", "balance"].any (fun ind => inStr ind col))
  let idColumns := columnsLower.filter idLikeColumn
  let s0 : ℚ := 0
  let s1 := if factIndicators.any (fun ind => inStr ind nameLower) then s0 + 0.4 else s0
  let s2 := if !valueColumns.isEmpty then s1 + (0.3 + (valueColumns.length : ℚ) * 0.1) else s1
  let s3 := if 3 ≤ idColumns.length then s2 + 0.2 else s2
  let s4 := if dimensionIndicators.any (fun ind => inStr ind nameLower) then s3 - 0.3 else s3
  if columns.length < 5 then s4 - 0.1 else s4

/-- `ModelSchemaManager._categorize_table` (model_schema.py lines
90-125): `is_fact = fact_score > 0.5` and
`confidence = min(max(fact_score, 0.1), 1.0)`. -/
def categorizeTable (tableName : String) (columns : List String) : Bool × ℚ :=
  (decide ((0.5 : ℚ) < factScore tableName columns),
   min (max (factScore tableName columns) 0.1) 1)

/-- The mutable state of `ModelSchemaManager`: the in-memory table
cache `_cached_tables` and `_last_discovery`. -/
structure SchemaMgrState where
  cachedTables : List (String × TableSchema)
  lastDiscovery : Option ℚ
deriving DecidableEq, Repr

/-- The flat schema cache file (`model_schema_cache.json`). -/
structure SchemaFileCache where
  timestamp : ℚ
  tables : List (String × TableSchema)
deriving DecidableEq, Repr

/-- Everything observable about one `discover_model_schema` call. -/
structure SchemaDiscoverOut where
  result : List (String × TableSchema)
  state : SchemaMgrState
  fileCache : Option SchemaFileCache
  calls : List RemoteCall
  logs : List LogEvent
deriving DecidableEq, Repr

/-- Parsing of the tables query result into the `table_info` dict of
name to description (lines 178-205).  The boolean marks the
original-format `IndexError` on an empty `'results'` list. -/
def parseTablesResult (tres : DaxResult) : List (String × String) × List LogEvent × Bool :=
  match tres with
  | .listFormat (some rows :: _) =>
    (rows.foldl (fun acc row =>
        let tableName := rowGet row "__def_Tables[Name]"
        let description := rowGet row "__def_Tables[Description]"
        if tableName != "" then alistInsert acc tableName description else acc) [],
     [⟨.info, "Found tables using custom DAX format"⟩], false)
  | .listFormat (none :: _) => ([], [], false)
  | .listFormat [] => ([], [], false)
  | .origFormat [] => ([], [], true)
  | .origFormat (firstResult :: _) =>
    match firstResult with
    | some rows :: _ =>
      (rows.foldl (fun acc row =>
          let tableName := rowGet row "__def_Tables[Name]"
          let description := rowGet row "__def_Tables[Description]"
          if tableName != "" then alistInsert acc tableName description else acc) [],
       [⟨.info, "Found tables using original format"⟩], false)
    | none :: _ => ([], [], false)
    | [] => ([], [], false)
  | .other => ([], [], false)

/-- One step of the column-grouping loop: append a column to its
table's list, creating the entry on first sight (lines 223-226). -/
def addColumn (acc : List (String × List String)) (tableName columnName : String) :
    List (String × List String) :=
  match alistLookup acc tableName with
  | some cur => alistInsert acc tableName (cur ++ [columnName])
  | none => alistInsert acc tableName [columnName]

/-- Parsing of the columns query result into the `table_columns` dict
of table name to column list (lines 207-242). -/
def parseColumnsResult (cres : DaxResult) :
    List (String × List String) × List LogEvent × Bool :=
  match cres with
  | .listFormat (some rows :: _) =>
    (rows.foldl (fun acc row =>
        let tableName := rowGet row "__def_Columns[Table]"
        let columnName := rowGet row "__def_Columns[Name]"
        if (tableName != "") && (columnName != "") then addColumn acc tableName columnName
        else acc) [],
     [⟨.info, "Found columns using custom DAX format"⟩], false)
  | .listFormat (none :: _) => ([], [], false)
  | .listFormat [] => ([], [], false)
  | .origFormat [] => ([], [], true)
  | .origFormat (firstResult :: _) =>
    match firstResult with
    | some rows :: _ =>
      (rows.foldl (fun acc row =>
          let tableName := rowGet row "__def_Columns[Table]"
          let columnName := rowGet row "__def_Columns[Name]"
          if (tableName != "") && (columnName != "") then addColumn acc tableName columnName
          else acc) [],
       [⟨.info, "Found columns using original format"⟩], false)
    | none :: _ => ([], [], false)
    | [] => ([], [], false)
  | .other => ([], [], false)

/-- Assembly of the discovered table map (lines 244-267): one
`TableSchema` per described table, then the column-only tables with
confidence scaled by 0.8. -/
def assembleTables (tableInfo : List (String × String))
    (tableColumns : List (String × List String)) : List (String × TableSchema) :=
  let fromInfo := tableInfo.foldl (fun acc kv =>
    let tableName := kv.1
    let columns := (alistLookup tableColumns tableName).getD []
    match categorizeTable tableName columns with
    | (isFact, confidence) =>
      alistInsert acc tableName ⟨tableName, columns, [], isFact, confidence⟩) []
  tableColumns.foldl (fun acc kv =>
    match alistLookup acc kv.1 with
    | some _ => acc
    | none =>
      match categorizeTable kv.1 kv.2 with
      | (isFact, confidence) =>
        alistInsert acc kv.1 ⟨kv.1, kv.2, [], isFact, confidence * 0.8⟩) fromInfo

/-- `ModelSchemaManager.discover_model_schema` (model_schema.py lines
127-282).  As with measure discovery, the cache gate is disabled in the
source ("Cache disabled - always get fresh schema", lines 135-136), so
`forceRefresh` and the caches are never consulted. -/
def discoverModelSchema (client : PBIClient) (st : SchemaMgrState)
    (fileCache : Option SchemaFileCache) (workspaceName datasetName : String)
    (forceRefresh : Bool) (now : ℚ) : SchemaDiscoverOut :=
  let _ := forceRefresh
  let logs0 : List LogEvent :=
    [⟨.info, "Discovering model schema from " ++ workspaceName ++ "/" ++ datasetName⟩]
  match client.getWorkspaceByName workspaceName with
  | .error _ =>
    { result := [], state := st, fileCache := fileCache,
      calls := [.workspaceLookup workspaceName],
      logs := logs0 ++ [⟨.error, "Failed to discover schema"⟩] }
  | .ok workspace =>
    match client.getDatasetByName workspace.id datasetName with
    | .error _ =>
      { result := [], state := st, fileCache := fileCache,
        calls := [.workspaceLookup workspaceName, .datasetLookup workspace.id datasetName],
        logs := logs0 ++ [⟨.error, "Failed to discover schema"⟩] }
    | .ok dataset =>
      let logs1 := logs0 ++ [⟨.info, "Using new discovery method with 4 DAX queries"⟩]
      let callsT := [.workspaceLookup workspaceName,
                     .datasetLookup workspace.id datasetName,
                     RemoteCall.daxQuery workspace.id dataset.id tablesQueryText]
      match client.executeDaxQuery workspace.id dataset.id tablesQueryText with
      | .error _ =>
        { result := [], state := st, fileCache := fileCache, calls := callsT,
          logs := logs1 ++ [⟨.error, "Failed to discover schema using DAX queries"⟩] }
      | .ok tres =>
        let callsC := callsT ++ [RemoteCall.daxQuery workspace.id dataset.id columnsQueryText]
        match client.executeDaxQuery workspace.id dataset.id columnsQueryText with
        | .error _ =>
          { result := [], state := st, fileCache := fileCache, calls := callsC,
            logs := logs1 ++ [⟨.error, "Failed to discover schema using DAX queries"⟩] }
        | .ok cres =>
          let parsedT := parseTablesResult tres
          let tableInfo := parsedT.1
          let tlogs := parsedT.2.1
          let tIndexError := parsedT.2.2
          if tIndexError then
            { result := [], state := st, fileCache := fileCache, calls := callsC,
              logs := logs1 ++ tlogs
                ++ [⟨.error, "Failed to discover schema using DAX queries"⟩] }
          else
            let parsedC := parseColumnsResult cres
            let tableColumns := parsedC.1
            let clogs := parsedC.2.1
            let cIndexError := parsedC.2.2
            if cIndexError then
              { result := [], state := st, fileCache := fileCache, calls := callsC,
                logs := logs1 ++ tlogs ++ clogs
                  ++ [⟨.error, "Failed to discover schema using DAX queries"⟩] }
            else
              let discovered := assembleTables tableInfo tableColumns
              { result := discovered,
                state := { cachedTables := discovered, lastDiscovery := some now },
                fileCache := some ⟨now, discovered⟩,
                calls := callsC,
                logs := logs1 ++ tlogs ++ clogs
                  ++ [⟨.info, "Saved table schemas to cache"⟩,
                      ⟨.info, "Discovered table schemas using new DAX queries"⟩] }

/-- `ModelSchemaManager.get_fact_tables` (lines 291-293). -/
def getFactTables (st : SchemaMgrState) : List TableSchema :=
  (st.cachedTables.map Prod.snd).filter (·.isFactTable)

/-- `ModelSchemaManager.get_dimension_tables` (lines 295-297). -/
def getDimensionTables (st : SchemaMgrState) : List TableSchema :=
  (st.cachedTables.map Prod.snd).filter (fun t => !t.isFactTable)

/-- The static alias table of `get_corrected_table_name` (lines
312-319). -/
def tableNameAliasCorrections : List (String × String) :=
  [("date", "_Date"), ("period", "_Period"), ("scenario", "_Scenario"),
   ("accounts", "Accounts"), ("journals", "Journals"), ("mapping", "Mapping")]

/-- `ModelSchemaManager.get_corrected_table_name` (lines 307-336):
static alias table first (when the corrected name is a discovered
table), then exact case-insensitive match, then substring match in
either direction. -/
def getCorrectedTableName (st : SchemaMgrState) (assumedName : String) : Option String :=
  let assumedLower := pyLower assumedName
  let viaAlias : Option String :=
    match alistLookup tableNameAliasCorrections assumedLower with
    | some corrected =>
      if (alistLookup st.cachedTables corrected).isSome then some corrected else none
    | none => none
  match viaAlias with
  | some c => some c
  | none =>
    match (st.cachedTables.map Prod.fst).find? (fun n => pyLower n == assumedLower) with
    | some n => some n
    | none =>
      (st.cachedTables.map Prod.fst).find? (fun n =>
        inStr assumedLower (pyLower n) || inStr (pyLower n) assumedLower)

/-! ### `builder.py`: the context cache tier (SQLite `context_cache`) -/

/-- One row of the `context_cache` table (builder.py lines 320-332).
Timestamps are kept as clock values in hours; the source stores
`isoformat()` strings, whose SQL string comparison agrees with
chronological order. -/
structure ContextCacheEntry where
  id : String
  contextType : String
  workspace : String
  dataset : String
  contentHash : String
  contextData : Json
  createdAt : ℚ
  expiresAt : ℚ
  hitCount : ℕ
  lastAccessed : ℚ

/-- `PowerBIContextBuilder._get_context_id` (lines 359-361). -/
def getContextId (contextType workspace dataset : String) : String :=
  contextType ++ "_" ++ workspace ++ "_" ++ dataset

/-- SQL `INSERT OR REPLACE` keyed by the primary key `id`. -/
def storeReplace : List ContextCacheEntry → ContextCacheEntry → List ContextCacheEntry
  | [], e => [e]
  | x :: t, e => if x.id = e.id then e :: t else x :: storeReplace t e

/-- `PowerBIContextBuilder._cache_context` with its fixed
`ttl_hours = 24` (lines 368-392): whole-record overwrite carrying the
content hash, a 24-hour expiry and a zero hit count. -/
def cacheContext (store : List ContextCacheEntry) (workspace dataset contextType : String)
    (contextData : Json) (now : ℚ) : List ContextCacheEntry :=
  storeReplace store
    { id := getContextId contextType workspace dataset,
      contextType := contextType,
      workspace := workspace,
      dataset := dataset,
      contentHash := contentHash contextData,
      contextData := contextData,
      createdAt := now,
      expiresAt := now + 24,
      hitCount := 0,
      lastAccessed := now }

/-- `PowerBIContextBuilder._get_cached_context` (lines 394-430):
`SELECT ... WHERE id = ? AND expires_at > ?`; on a hit the row's
`hit_count` is incremented and `last_accessed` updated; an expired row
is treated as absent. -/
def getCachedContext (store : List ContextCacheEntry) (workspace dataset contextType : String)
    (now : ℚ) : Option Json × List ContextCacheEntry :=
  let cid := getContextId contextType workspace dataset
  match store.find? (fun e => e.id == cid && decide (now < e.expiresAt)) with
  | some e =>
    (some e.contextData,
     store.map (fun x =>
       if x.id = cid then { x with hitCount := x.hitCount + 1, lastAccessed := now } else x))
  | none => (none, store)

/-! ### `builder.py`: the context documents -/

/-- `POHODA_TABLES` (constants.py lines 24-62), used by the degraded
schema and hierarchy documents. -/
def pohodaTablesJson : Json :=
  .obj
    [("Journals", .obj
       [("description", .str "Central fact table with all accounting transactions"),
        ("key_columns", .arr [.str "Journal Id", .str "Date Accounting", .str "Account Id",
          .str "Contact Id", .str "Cost Center Id", .str "Amount", .str "Currency",
          .str "Scenario"])]),
     ("Accounts", .obj
       [("description", .str "Chart of accounts with financial statement mapping"),
        ("key_columns", .arr [.str "Account Id", .str "Account Code", .str "Account Name",
          .str "Account Map"])]),
     ("Mapping", .obj
       [("description", .str "Financial statement hierarchy mapping - CRITICAL for financial analysis"),
        ("key_columns", .arr [.str "Account Id", .str "Account Code", .str "Account Name",
          .str "lvl1", .str "lvl2", .str "lvl3", .str "lvl4"]),
        ("hierarchy_info", .obj
          [("lvl1", .str "Top level - EBITDA or Below EBITDA classification"),
           ("lvl2", .str "Secondary classification - more detailed financial categories"),
           ("lvl3", .str "Tertiary classification - specific line items"),
           ("lvl4", .str "Most detailed level - granular account classification")]),
        ("usage", .str "Essential for financial statement analysis, P&L categorization, and determining if accounts are revenue, costs, assets, liabilities etc.")]),
     ("Contacts", .obj
       [("description", .str "Customer and supplier master data"),
        ("key_columns", .arr [.str "Contact Id", .str "Contact Name", .str "ID TAX",
          .str "ID BUSINESS", .str "ID VAT"])]),
     ("Cost Centers", .obj
       [("description", .str "Department/project tracking"),
        ("key_columns", .arr [.str "Cost Center Id", .str "Cost Center Name",
          .str "Cost Center Owner"])]),
     ("_Date", .obj
       [("description", .str "Calendar dimension with fiscal year support"),
        ("key_columns", .arr [.str "Date", .str "Year", .str "Month", .str "Quarter",
          .str "Fiscal Year"])]),
     ("_Period", .obj
       [("description", .str "Time analysis periods"),
        ("values", .arr [.str "MTD", .str "QTD", .str "YTD", .str "LTM", .str "WTD"])])]

/-- `POHODA_TABLES.get('Mapping', {})`, embedded by the degraded
hierarchy document. -/
def pohodaMappingJson : Json :=
  .obj
    [("description", .str "Financial statement hierarchy mapping - CRITICAL for financial analysis"),
     ("key_columns", .arr [.str "Account Id", .str "Account Code", .str "Account Name",
       .str "lvl1", .str "lvl2", .str "lvl3", .str "lvl4"]),
     ("hierarchy_info", .obj
       [("lvl1", .str "Top level - EBITDA or Below EBITDA classification"),
        ("lvl2", .str "Secondary classification - more detailed financial categories"),
        ("lvl3", .str "Tertiary classification - specific line items"),
        ("lvl4", .str "Most detailed level - granular account classification")]),
     ("usage", .str "Essential for financial statement analysis, P&L categorization, and determining if accounts are revenue, costs, assets, liabilities etc.")]

/-- The `category_group` assignment of `build_measures_context`
(builder.py lines 52-61). -/
def measureCategoryGroup (category : String) : String :=
  if ["revenue"].contains category then "revenue"
  else if ["gross_profit", "ebitda", "net_profit"].contains category then "profitability"
  else if ["cash", "working_capital", "total_assets", "equity"].contains category then
    "balance_sheet"
  else if inStr "py" category || inStr "budget" category then "variance"
  else "unknown"

/-- The per-measure record placed into `measures_by_category`
(builder.py lines 63-68). -/
def measureJson (m : DiscoveredMeasure) : Json :=
  .obj [("name", .str m.name), ("category", .str m.category),
        ("confidence", .rat m.confidence), ("aliases", .arr (m.aliases.map .str))]

/-- The `active_mappings` dict of `build_measures_context` (lines
36-41): each static generic name that resolves through
`get_measure_mapping`. -/
def activeMappings (mst : MeasureMgrState) : List (String × String) :=
  financialMeasuresDax.foldl (fun acc kv =>
    match getMeasureMapping mst kv.1 with
    | some actual => alistInsert acc kv.1 actual
    | none => acc) []

/-- The document built by `build_measures_context` (builder.py lines
28-99).  `int(measure.confidence * 100)` truncates a non-negative
confidence, i.e. takes its floor. -/
def buildMeasuresPayload (mst : MeasureMgrState) (workspace dataset lastUpdated : String) :
    Json :=
  let discovered := getAllDiscoveredMeasures mst
  let highConfidence := getHighConfidenceMeasures mst
  let revenueMeasures := getRevenueMeasures mst
  let mappings := activeMappings mst
  let group := fun (g : String) =>
    Json.arr (((discovered.map Prod.snd).filter
      (fun m => measureCategoryGroup m.category == g)).map measureJson)
  .obj
    [("workspace", .str workspace),
     ("dataset", .str dataset),
     ("last_updated", .str lastUpdated),
     ("total_measures", .int (lengthAcc discovered 0)),
     ("high_confidence_count", .int (lengthAcc highConfidence 0)),
     ("measures_by_category", .obj
       [("revenue", group "revenue"),
        ("profitability", group "profitability"),
        ("balance_sheet", group "balance_sheet"),
        ("variance", group "variance"),
        ("unknown", group "unknown")]),
     ("active_mappings", .obj (mappings.map (fun kv => (kv.1, Json.str kv.2)))),
     ("recommended_measures", .obj (highConfidence.map (fun p =>
       (p.2.name, Json.obj
         [("category", .str p.2.category),
          ("confidence", .int ⌊p.2.confidence * 100⌋),
          ("suggested_use", .str ("Use [" ++ p.2.name ++ "] for " ++ p.2.category ++ " queries"))])))),
     ("usage_guide", .obj
       [("revenue_queries", .arr ((revenueMeasures.take 3).map .str)),
        ("dax_format", .str "Always use [MeasureName] format in DAX queries"),
        ("mapping_info", .str (natToDec (lengthAcc mappings 0)
          ++ " generic measures mapped to actual names"))])]

/-- The degraded document of `build_measures_context`'s `except` branch
(builder.py lines 105-112). -/
def measuresDegraded (workspace dataset : String) : Json :=
  .obj [("error", .str "Measures context unavailable"),
        ("fallback", .str "Use discover_measures() tool to get current measure list"),
        ("workspace", .str workspace),
        ("dataset", .str dataset)]

/-- `build_measures_context` (builder.py lines 28-112), success path:
build the document, write it to the context cache (`_cache_context`)
and return it.  The body reads only the in-memory manager state, so in
this model it cannot raise; the `except` branch is modelled by
`tryBuildContext` below. -/
def buildMeasuresContext (mst : MeasureMgrState) (workspace dataset lastUpdated : String)
    (now : ℚ) (store : List ContextCacheEntry) : Json × List ContextCacheEntry :=
  let context := buildMeasuresPayload mst workspace dataset lastUpdated
  (context, cacheContext store workspace dataset "measures" context now)

/-- First maximal element by confidence (Python
`max(fact_tables, key=lambda t: t.confidence)`). -/
def maxByConfidence (h : TableSchema) (t : List TableSchema) : TableSchema :=
  t.foldl (fun best x => if best.confidence < x.confidence then x else best) h

/-- The `table_name_corrections` dict of `build_schema_context` (lines
122-128). -/
def schemaCorrections (sst : SchemaMgrState) : List (String × String) :=
  ["date", "period", "scenario", "accounts", "journals", "mapping"].foldl (fun acc n =>
    match getCorrectedTableName sst n with
    | some corrected =>
      if pyLower corrected != n then alistInsert acc (pyTitle n) corrected else acc
    | none => acc) []

/-- The `key_tables` dict of `build_schema_context` (lines 130-156). -/
def schemaKeyTables (sst : SchemaMgrState) : List (String × Json) :=
  let factTables := getFactTables sst
  let dimTables := getDimensionTables sst
  let kt0 : List (String × Json) :=
    match factTables with
    | [] => []
    | h :: t =>
      let mainFact := maxByConfidence h t
      [("main_fact_table", .obj
         [("name", .str mainFact.name),
          ("columns", .int (lengthAcc mainFact.columns 0)),
          ("confidence", .int ⌊mainFact.confidence * 100⌋)])]
  let kt1 : List (String × Json) :=
    match dimTables.filter (fun t => inStr "date" (pyLower t.name)) with
    | [] => kt0
    | dateTable :: _ =>
      kt0 ++ [("date_table", .obj
        [("name", .str dateTable.name),
         ("year_columns", .arr ((dateTable.columns.filter
           (fun col => inStr "year" (pyLower col))).map .str))])]
  match (sst.cachedTables.map Prod.snd).filter (fun t => inStr "mapping" (pyLower t.name)) with
  | [] => kt1
  | mappingTable :: _ =>
    kt1 ++ [("mapping_table", .obj
      [("name", .str mappingTable.name),
       ("hierarchy_columns", .arr ((mappingTable.columns.filter
         (fun col => pyStartsWith col "lvl")).map .str))])]

/-- The document built by `build_schema_context` (builder.py lines
114-183). -/
def buildSchemaPayload (sst : SchemaMgrState) (workspace dataset lastUpdated : String) : Json :=
  .obj
    [("workspace", .str workspace),
     ("dataset", .str dataset),
     ("last_updated", .str lastUpdated),
     ("total_tables", .int (lengthAcc sst.cachedTables 0)),
     ("table_name_corrections", .obj ((schemaCorrections sst).map (fun kv => (kv.1, Json.str kv.2)))),
     ("key_tables", .obj (schemaKeyTables sst)),
     ("fact_tables", .arr ((getFactTables sst).map (fun t => .str t.name))),
     ("dimension_tables", .arr ((getDimensionTables sst).map (fun t => .str t.name))),
     ("dax_best_practices", .obj
       [("table_references", .str "Always use actual table names from corrections above"),
        ("common_errors", .arr
          [.str "Use '_Date[Year]' not 'Date[Year]'",
           .str "Use 'Journals' for transaction data",
           .str "Use 'Mapping' table for financial hierarchy (lvl1-lvl4)"])])]

/-- The degraded document of `build_schema_context`'s `except` branch
(builder.py lines 189-195). -/
def schemaDegraded : Json :=
  .obj [("error", .str "Schema context unavailable"),
        ("fallback", .str "Use analyze_model_schema() tool to get current schema"),
        ("static_info", pohodaTablesJson)]

/-- `build_schema_context` (builder.py lines 114-195), success path. -/
def buildSchemaContext (sst : SchemaMgrState) (workspace dataset lastUpdated : String)
    (now : ℚ) (store : List ContextCacheEntry) : Json × List ContextCacheEntry :=
  let context := buildSchemaPayload sst workspace dataset lastUpdated
  (context, cacheContext store workspace dataset "schema" context now)

/-- The static document built by `build_financial_hierarchy_context`
(builder.py lines 197-222). -/
def buildHierarchyPayload : Json :=
  .obj
    [("mapping_table_info", .obj
       [("description", .str "CRITICAL for financial analysis - provides EBITDA vs Below EBITDA classification"),
        ("key_columns", .arr [.str "Account Id", .str "Account Code", .str "Account Name",
          .str "lvl1", .str "lvl2", .str "lvl3", .str "lvl4"]),
        ("hierarchy_levels", .obj
          [("lvl1", .str "Top level - EBITDA or Below EBITDA classification"),
           ("lvl2", .str "Secondary classification - detailed financial categories"),
           ("lvl3", .str "Tertiary classification - specific line items"),
           ("lvl4", .str "Most detailed level - granular account classification")]),
        ("usage", .str "Essential for P&L analysis, financial statement categorization, and EBITDA calculations")]),
     ("financial_analysis_guide", .obj
       [("revenue_classification", .str "Use lvl1=EBITDA accounts for revenue analysis"),
        ("cost_analysis", .str "Use lvl1=Below EBITDA for cost categorization"),
        ("hierarchy_queries", .str "Always include relevant lvl1-lvl4 columns for proper categorization")])]

/-- The degraded document of `build_financial_hierarchy_context`'s
`except` branch (builder.py lines 224-229). -/
def hierarchyDegraded : Json :=
  .obj [("error", .str "Hierarchy context unavailable"),
        ("static_info", pohodaMappingJson)]

/-- `build_financial_hierarchy_context` (builder.py lines 197-229),
success path. -/
def buildHierarchyContext (workspace dataset : String) (now : ℚ)
    (store : List ContextCacheEntry) : Json × List ContextCacheEntry :=
  (buildHierarchyPayload, cacheContext store workspace dataset "financial_hierarchy" buildHierarchyPayload now)

/-- The `try`/`except` of each builder method: an exception raised by
the body yields the degraded document and leaves the context cache
untouched, so a degraded document is never cached (builder.py lines
30/105, 116/189, 199/224, 233/274). -/
def tryBuildContext (body : Except String (Json × List ContextCacheEntry))
    (degraded : Json) (store : List ContextCacheEntry) : Json × List ContextCacheEntry :=
  match body with
  | .ok r => r
  | .error _ => (degraded, store)

/-- The degraded document of `build_complete_context`'s `except` branch
(builder.py lines 274-285).  Note its guidance list key is
`fallback_tools`, not `fallback`. -/
def completeDegraded (workspace dataset : String) : Json :=
  .obj [("error", .str "Complete context unavailable"),
        ("fallback_tools", .arr
          [.str "discover_measures() - Get current measures",
           .str "analyze_model_schema() - Get table schema",
           .str "analyze_mapping_structure() - Get financial hierarchy"]),
        ("workspace", .str workspace),
        ("dataset", .str dataset)]

/-- `build_complete_context` (builder.py lines 231-285).  The client is
passed as the ambient environment of the build; the source body never
invokes it — the three sub-builders read only the in-memory discovery
caches — so the document is the same for every client behaviour. -/
def buildCompleteContext (client : PBIClient) (mst : MeasureMgrState) (sst : SchemaMgrState)
    (workspace dataset lastUpdated : String) (now : ℚ) (store : List ContextCacheEntry) :
    Json × List ContextCacheEntry :=
  let _ := client
  match buildMeasuresContext mst workspace dataset lastUpdated now store with
  | (measuresCtx, store1) =>
    match buildSchemaContext sst workspace dataset lastUpdated now store1 with
    | (schemaCtx, store2) =>
      match buildHierarchyContext workspace dataset now store2 with
      | (hierarchyCtx, store3) =>
        (.obj
          [("power_bi_model_info", .obj
             [("workspace", .str workspace),
              ("dataset", .str dataset),
              ("last_context_update", .str lastUpdated),
              ("context_version", .str "1.0")]),
           ("measures", measuresCtx),
           ("schema", schemaCtx),
           ("financial_hierarchy", hierarchyCtx),
           ("claude_quick_reference", .obj
             [("measure_format", .str "Use [MeasureName] format in all DAX queries"),
              ("table_corrections", .str "Check schema.table_name_corrections for actual table names"),
              ("financial_hierarchy", .str "Use Mapping table lvl1-lvl4 for proper P&L categorization"),
              ("best_practices", .arr
                [.str "Always use actual measure names from measures.active_mappings",
                 .str "Use corrected table names to avoid DAX errors",
                 .str "Include financial hierarchy for accurate analysis",
                 .str "Give short and precise answers unless asked otherwise"])]),
           ("context_metadata", .obj
             [("cache_duration", .str "24 hours"),
              ("refresh_command", .str "Use discover_measures(force_refresh=True) to update"),
              ("schema_refresh", .str "Use analyze_model_schema(force_refresh=True) to update")])],
         store3)

/-- The shared shape of the three `build_*_context_cached` methods
(builder.py lines 452-507): unless refresh is forced, an unexpired
cache entry is served (incrementing its hit count); otherwise the fresh
builder runs. -/
def buildContextCached (buildFresh : List ContextCacheEntry → Json × List ContextCacheEntry)
    (workspace dataset contextType : String) (forceRefresh : Bool) (now : ℚ)
    (store : List ContextCacheEntry) : Json × List ContextCacheEntry :=
  if forceRefresh then buildFresh store
  else
    match getCachedContext store workspace dataset contextType now with
    | (some cached, store') => (cached, store')
    | (none, store') => buildFresh store'

/-- `build_measures_context_cached` (builder.py lines 452-469). -/
def buildMeasuresContextCached (mst : MeasureMgrState) (workspace dataset lastUpdated : String)
    (forceRefresh : Bool) (now : ℚ) (store : List ContextCacheEntry) :
    Json × List ContextCacheEntry :=
  buildContextCached (buildMeasuresContext mst workspace dataset lastUpdated now)
    workspace dataset "measures" forceRefresh now store

/-- `build_schema_context_cached` (builder.py lines 471-488). -/
def buildSchemaContextCached (sst : SchemaMgrState) (workspace dataset lastUpdated : String)
    (forceRefresh : Bool) (now : ℚ) (store : List ContextCacheEntry) :
    Json × List ContextCacheEntry :=
  buildContextCached (buildSchemaContext sst workspace dataset lastUpdated now)
    workspace dataset "schema" forceRefresh now store

/-- `build_financial_hierarchy_context_cached` (builder.py lines
490-507). -/
def buildHierarchyContextCached (workspace dataset : String)
    (forceRefresh : Bool) (now : ℚ) (store : List ContextCacheEntry) :
    Json × List ContextCacheEntry :=
  buildContextCached (buildHierarchyContext workspace dataset now)
    workspace dataset "financial_hierarchy" forceRefresh now store

/-- Does a JSON object carry a given top-level key? -/
def hasKey (j : Json) (k : String) : Bool :=
  match j with
  | .obj fields => fields.any (fun kv => kv.1 == k)
  | _ => false

/-- The value of a top-level key of a JSON object. -/
def getKey (j : Json) (k : String) : Option Json :=
  match j with
  | .obj fields => alistLookup fields k
  | _ => none

/-! ### Specification-side definitions and concrete fixtures -/

/-- The fact-table score exactly as the specification words it: a sum of
weighted clauses (+0.4 fact-indicator name, +(0.3 + 0.1×value-column
count) when a value column is present, +0.2 for at least three
identifier-like columns, −0.3 dimension-indicator name, −0.1 for fewer
than five columns).  The indicator word lists are those of the source;
the spec names them generically. -/
def specTableScore (tableName : String) (columns : List String) : ℚ :=
  let nameLower := pyLower tableName
  let columnsLower := columns.map pyLower
  let valueColumnCount := (columnsLower.filter (fun col =>
    ["amount", "value", "quantity", "balance"].any (fun ind => inStr ind col))).length
  let idColumnCount := (columnsLower.filter idLikeColumn).length
  (if ["journal", "transaction", "entry", "line", "fact"].any
      (fun ind => inStr ind nameLower) then 0.4 else 0)
  + (if columnsLower.any (fun col =>
      ["amount", "value", "quantity", "balance"].any (fun ind => inStr ind col)) then
      0.3 + 0.1 * (valueColumnCount : ℚ) else 0)
  + (if 3 ≤ idColumnCount then 0.2 else 0)
  - (if ["dim", "_date", "_period", "account", "contact", "mapping"].any
      (fun ind => inStr ind nameLower) then 0.3 else 0)
  - (if columns.length < 5 then 0.1 else 0)

/-- An empty measure-manager state: nothing discovered, no custom
mappings. -/
def emptyMeasureState : MeasureMgrState := ⟨[], [], none⟩

/-- An empty schema-manager state. -/
def emptySchemaState : SchemaMgrState := ⟨[], none⟩

/-- A client on which every remote call raises. -/
def failingClient : PBIClient :=
  { getWorkspaceByName := fun _ => .error "connection failed",
    getDatasetByName := fun _ _ => .error "connection failed",
    executeDaxQuery := fun _ _ _ => .error "connection failed" }

/-- A client whose lookups succeed and whose every DAX query returns the
given rows in the custom list format. -/
def rowsClient (rows : List Row) : PBIClient :=
  { getWorkspaceByName := fun n => .ok ⟨"workspace-id", n⟩,
    getDatasetByName := fun _ n => .ok ⟨"dataset-id", n⟩,
    executeDaxQuery := fun _ _ _ => .ok (.listFormat [some rows]) }

/-- A client whose lookups and measures query succeed but whose
auxiliary context queries (tables/columns/relationships) raise. -/
def auxFailClient (rows : List Row) : PBIClient :=
  { getWorkspaceByName := fun n => .ok ⟨"workspace-id", n⟩,
    getDatasetByName := fun _ n => .ok ⟨"dataset-id", n⟩,
    executeDaxQuery := fun _ _ q =>
      if q = measuresQueryText then .ok (.listFormat [some rows]) else .error "query failed" }

/-- The marker-filter scenario rows of the specification:
`[{name:"Revenue_AI", description:"Total sales"}, {name:"Helper1",
description:"internal"}]`. -/
def scenarioRows : List Row :=
  [[("__def_Measures[Name]", "Revenue_AI"), ("__def_Measures[Description]", "Total sales")],
   [("__def_Measures[Name]", "Helper1"), ("__def_Measures[Description]", "internal")]]

/-- A fresh (unexpired) measure cache file: written at hour 0 and
holding one discovered measure. -/
def freshMeasureCache : MeasureFileCache :=
  ⟨0, [("Revenue_AI", ⟨"Revenue_AI", "Total sales", "revenue", 0.9, ["revenue"]⟩)]⟩

/-- A state holding one high-confidence discovered revenue measure and
a custom mapping for `revenue` (the custom mapping must win). -/
def customWinsState : MeasureMgrState :=
  ⟨[("Rev_AI", ⟨"Rev_AI", "", "revenue", 0.9, ["revenue"]⟩)],
   [("revenue", "[Custom Revenue]")], none⟩

/-- The same state without the custom mapping (the category match must
win over the static fallback `[Revenue]`). -/
def categoryWinsState : MeasureMgrState :=
  ⟨[("Rev_AI", ⟨"Rev_AI", "", "revenue", 0.9, ["revenue"]⟩)], [], none⟩

/-- The cache-tier entry after a hit: the stored record with its hit
count incremented and `last_accessed` updated, everything else (hash,
payload, timestamps) unchanged. -/
def c2HitEntry (workspace dataset ctype : String) (p : Json) (T readTime : ℚ) :
    ContextCacheEntry :=
  { id := getContextId ctype workspace dataset, contextType := ctype,
    workspace := workspace, dataset := dataset,
    contentHash := contentHash p, contextData := p,
    createdAt := T, expiresAt := T + 24, hitCount := 1, lastAccessed := readTime }

/-- The cache-tier entry after an expired read and rebuild: a whole new
record for the freshly built payload with hit count reset to 0. -/
def c2MissEntry (workspace dataset : String) (freshPayload : Json) (buildTime : ℚ) :
    ContextCacheEntry :=
  { id := getContextId "measures" workspace dataset, contextType := "measures",
    workspace := workspace, dataset := dataset,
    contentHash := contentHash freshPayload, contextData := freshPayload,
    createdAt := buildTime, expiresAt := buildTime + 24, hitCount := 0,
    lastAccessed := buildTime }

/-- The context-cache TTL law at one entry: written at `T` and read at
`T + Δ`, the cache primitives serve the entry unchanged with its hit
count incremented exactly when `Δ < 24`, and at `Δ ≥ 24` treat it as
absent; on the cached build path a fresh build then overwrites the
record with hit count 0. -/
def c2Law (workspace dataset ctype : String) (p : Json) (mst : MeasureMgrState)
    (lastUpdated : String) (T Δ : ℚ) : Prop :=
  ((Δ < 24 →
     getCachedContext (cacheContext [] workspace dataset ctype p T)
         workspace dataset ctype (T + Δ)
       = (some p, [c2HitEntry workspace dataset ctype p T (T + Δ)]))
   ∧ (24 ≤ Δ →
     getCachedContext (cacheContext [] workspace dataset ctype p T)
         workspace dataset ctype (T + Δ)
       = (none, cacheContext [] workspace dataset ctype p T)))
  ∧ ((Δ < 24 →
       buildMeasuresContextCached mst workspace dataset lastUpdated false (T + Δ)
           (cacheContext [] workspace dataset "measures" p T)
         = (p, [c2HitEntry workspace dataset "measures" p T (T + Δ)]))
     ∧ (24 ≤ Δ →
       buildMeasuresContextCached mst workspace dataset lastUpdated false (T + Δ)
           (cacheContext [] workspace dataset "measures" p T)
         = (buildMeasuresPayload mst workspace dataset lastUpdated,
            [c2MissEntry workspace dataset
              (buildMeasuresPayload mst workspace dataset lastUpdated) (T + Δ)])))

/-! ## Helper lemmas -/

/-- A key is present after an insert-or-overwrite exactly when it is the
inserted key or was already present. -/
theorem alistLookup_alistInsert_isSome {α : Type} (l : List (String × α)) (k k' : String)
    (v : α) :
    (alistLookup (alistInsert l k v) k').isSome ↔ k' = k ∨ (alistLookup l k').isSome := by
  induction l with
  | nil =>
    simp only [alistInsert, alistLookup]
    by_cases h : k = k'
    · simp [h]
    · simp [h, Ne.symm h]
  | cons hd tl ih =>
    obtain ⟨k₀, v₀⟩ := hd
    simp only [alistInsert]
    by_cases h1 : k₀ = k
    · subst h1
      simp only [alistLookup]
      by_cases h2 : k₀ = k'
      · simp [h2]
      · simp [h2, Ne.symm h2]
    · rw [if_neg h1]
      simp only [alistLookup]
      by_cases h2 : k₀ = k'
      · simp [h2]
      · simp [h2, ih]

/-- Key membership in the measure-row fold: a key is present after
processing `rows` on top of `acc` exactly when it was in `acc` or some
row carries it as a non-empty, `"_AI"`-marked measure name. -/
theorem parseMeasureRows_fold_key (rows : List Row)
    (acc : List (String × DiscoveredMeasure)) (k : String) :
    (alistLookup (rows.foldl parseMeasureRowStep acc) k).isSome
      ↔ (alistLookup acc k).isSome
        ∨ ∃ row ∈ rows, rowGet row "__def_Measures[Name]" = k
            ∧ k ≠ "" ∧ inStr "_AI" k = true := by
  induction rows generalizing acc with
  | nil => simp
  | cons row rest ih =>
    rw [List.foldl_cons, ih, List.exists_mem_cons_iff]
    have hstep : (alistLookup (parseMeasureRowStep acc row) k).isSome
        ↔ (alistLookup acc k).isSome
          ∨ (rowGet row "__def_Measures[Name]" = k ∧ k ≠ "" ∧ inStr "_AI" k = true) := by
      unfold parseMeasureRowStep
      by_cases hc : ((rowGet row "__def_Measures[Name]" != "")
          && inStr "_AI" (rowGet row "__def_Measures[Name]")) = true
      · rw [if_pos hc]
        simp only [Bool.and_eq_true, bne_iff_ne, ne_eq] at hc
        rw [alistLookup_alistInsert_isSome]
        constructor
        · rintro (hk | h)
          · exact Or.inr ⟨hk.symm, hk ▸ hc.1, hk ▸ hc.2⟩
          · exact Or.inl h
        · rintro (h | ⟨h1, _, _⟩)
          · exact Or.inr h
          · exact Or.inl h1.symm
      · rw [if_neg hc]
        simp only [Bool.and_eq_true, bne_iff_ne, ne_eq, not_and_or, not_not] at hc
        constructor
        · exact Or.inl
        · rintro (h | ⟨h1, h2, h3⟩)
          · exact h
          · exfalso
            rcases hc with hc | hc
            · exact h2 (h1 ▸ hc)
            · rw [h1] at hc
              exact hc h3
    rw [hstep]
    tauto

/-- Emptiness of a filter is the negation of `any`. -/
theorem filter_isEmpty_eq_not_any {α : Type} (p : α → Bool) (l : List α) :
    (l.filter p).isEmpty = !(l.any p) := by
  induction l with
  | nil => rfl
  | cons h t ih => cases hp : p h <;> simp [List.filter_cons, hp, ih]

/-! ## Claim theorems -/

/-- C10: the result of measure categorization depends only on the
measure name — `_categorize_measure` binds its second argument to
`formula_lower` and never reads it, so the description/formula text can
never influence the assigned category, confidence or aliases. -/
theorem C10_categorize_ignores_description :
    ∀ (n t₁ t₂ : String), categorizeMeasure n t₁ = categorizeMeasure n t₂ :=
  fun _ _ _ => rfl

/-- C9: `_categorize_measure` is a deterministic pure function of its
`(name, combined_text)` arguments — equal inputs give the identical
`(category, confidence, aliases)` tuple — and whenever none of its
keyword branches matches the name it returns `("unknown", 0.1, [])`. -/
theorem C9_categorize_deterministic_unknown_default :
    ∀ (n₁ n₂ t₁ t₂ : String),
      (n₁ = n₂ → t₁ = t₂ → categorizeMeasure n₁ t₁ = categorizeMeasure n₂ t₂)
      ∧ (anyCategorizeBranchMatches n₁ = false →
          categorizeMeasure n₁ t₁ = ("unknown", 0.1, [])) := by
  intro n₁ n₂ t₁ t₂
  refine ⟨fun h1 h2 => by rw [h1, h2], fun h => ?_⟩
  unfold anyCategorizeBranchMatches at h
  simp only [Bool.or_eq_false_iff] at h
  obtain ⟨⟨⟨⟨⟨⟨h1, h2⟩, h3⟩, h4⟩, ⟨h5a, h5b⟩⟩, h6⟩, h7⟩ := h
  unfold categorizeMeasure
  simp only [h1, h2, h3, h4, h5a, h5b, h6, h7]
  rfl

/-- C9 witness: a name matching no keyword branch. -/
theorem C9_witness :
    anyCategorizeBranchMatches "Foo Bar" = false
    ∧ categorizeMeasure "Foo Bar" "some descriptive text" = ("unknown", 0.1, []) :=
  ⟨by decide,
   (C9_categorize_deterministic_unknown_default "Foo Bar" "Foo Bar"
     "some descriptive text" "some descriptive text").2 (by decide)⟩

/-- C6: a CustomMapping entry for a generic name always wins —
`get_measure_mapping` returns it whatever the cached measures or the
static fallback table hold — and in its absence a cached measure whose
category equals the generic name with confidence above 0.6 wins over
the static fallback: the returned name is such a measure's name. -/
theorem C6_custom_mapping_priority :
    ∀ (st : MeasureMgrState) (g v : String),
      (alistLookup st.measureMappings g = some v → getMeasureMapping st g = some v)
      ∧ (alistLookup st.measureMappings g = none →
         (∃ p ∈ st.cachedMeasures, p.2.category = g ∧ (0.6 : ℚ) < p.2.confidence) →
         ∃ p ∈ st.cachedMeasures, p.2.category = g ∧ (0.6 : ℚ) < p.2.confidence
           ∧ getMeasureMapping st g = some p.2.name) := by
  refine fun st g v => ⟨fun h => ?_, fun hnone hex => ?_⟩
  · unfold getMeasureMapping
    rw [h]
  · have hpred : ∃ p ∈ st.cachedMeasures,
        (p.2.category == g && decide ((0.6 : ℚ) < p.2.confidence)) = true := by
      obtain ⟨p, hp, hc, hconf⟩ := hex
      exact ⟨p, hp, by simp [hc, hconf]⟩
    have hsome : (st.cachedMeasures.find? (fun p =>
        p.2.category == g && decide ((0.6 : ℚ) < p.2.confidence))).isSome :=
      List.find?_isSome.mpr hpred
    obtain ⟨q, hq⟩ := Option.isSome_iff_exists.mp hsome
    have hqmem := List.mem_of_find?_eq_some hq
    have hqp := List.find?_some hq
    simp only [Bool.and_eq_true, beq_iff_eq, decide_eq_true_eq] at hqp
    refine ⟨q, hqmem, hqp.1, hqp.2, ?_⟩
    unfold getMeasureMapping
    rw [hnone, hq]

/-- C6 witness: with a custom mapping present it is returned verbatim;
without one, the high-confidence category match is returned. -/
theorem C6_witness :
    getMeasureMapping customWinsState "revenue" = some "[Custom Revenue]"
    ∧ ∃ p ∈ categoryWinsState.cachedMeasures,
        p.2.category = "revenue" ∧ (0.6 : ℚ) < p.2.confidence
          ∧ getMeasureMapping categoryWinsState "revenue" = some p.2.name :=
  ⟨(C6_custom_mapping_priority customWinsState "revenue" "[Custom Revenue]").1 rfl,
   (C6_custom_mapping_priority categoryWinsState "revenue" "[Custom Revenue]").2 rfl
     ⟨("Rev_AI", ⟨"Rev_AI", "", "revenue", 0.9, ["revenue"]⟩), by simp [categoryWinsState],
      rfl, by norm_num⟩⟩

/-- C5 (amended): two builds of the measures context from identical
classifier outputs and an identical build timestamp yield identical
`content_hash` values, and `content_hash` is a pure function of the
payload passed to it.  (The build embeds the `last_updated` clock
reading into the hashed payload, so only same-instant rebuilds are
guaranteed identical — see the counterexample.) -/
theorem C5_amended_same_clock_hash :
    ∀ (mst : MeasureMgrState) (w d t : String) (now : ℚ)
      (store₁ store₂ : List ContextCacheEntry) (p q : Json),
      contentHash (buildMeasuresContext mst w d t now store₁).1
        = contentHash (buildMeasuresContext mst w d t now store₂).1
      ∧ (p = q → contentHash p = contentHash q) :=
  fun _ _ _ _ _ _ _ _ _ => ⟨rfl, fun h => by rw [h]⟩

/-- C5 witness for the purity hypothesis. -/
theorem C5_witness :
    Json.str "x" = Json.str "x" ∧ contentHash (Json.str "x") = contentHash (Json.str "x") :=
  ⟨rfl, (C5_amended_same_clock_hash emptyMeasureState "W" "D" "t" 0 [] [] (Json.str "x")
    (Json.str "x")).2 rfl⟩

/-- C7 counterexample: with a client that raises on every call,
`build_complete_context` returns a normal document with no `error` key
and no `fallback` list at all — the sub-builders read only the
in-memory caches and never invoke the client, so the claimed degraded
document does not appear. -/
theorem C7_counterexample :
    hasKey (buildCompleteContext failingClient emptyMeasureState emptySchemaState
      "W" "D" "2024-01-01T00:00:00" 0 []).1 "error" = false
    ∧ hasKey (buildCompleteContext failingClient emptyMeasureState emptySchemaState
      "W" "D" "2024-01-01T00:00:00" 0 []).1 "fallback" = false := by
  exact ⟨rfl, rfl⟩

/-- C7 (amended): `build_complete_context` never raises and returns a
well-formed document (with `measures`, `schema` and
`financial_hierarchy` sub-documents) for every client behaviour,
including one that raises on every call; that document carries no
`error` key, because the sub-builders read only in-memory discovery
caches and never invoke the remote client.  A degraded document —
produced only when a build body itself raises — is returned without
touching the context cache, so the next call rebuilds fresh; and the
top-level degraded document's guidance list sits under
`fallback_tools`, not `fallback`. -/
theorem C7_degraded_document_contract :
    ∀ (client : PBIClient) (mst : MeasureMgrState) (sst : SchemaMgrState)
      (w d t : String) (now : ℚ) (store : List ContextCacheEntry),
      hasKey (buildCompleteContext client mst sst w d t now store).1 "error" = false
      ∧ hasKey (buildCompleteContext client mst sst w d t now store).1 "measures" = true
      ∧ hasKey (buildCompleteContext client mst sst w d t now store).1 "schema" = true
      ∧ hasKey (buildCompleteContext client mst sst w d t now store).1 "financial_hierarchy" = true
      ∧ (∀ (e : String) (degraded : Json) (store' : List ContextCacheEntry),
          tryBuildContext (.error e) degraded store' = (degraded, store'))
      ∧ hasKey (completeDegraded w d) "error" = true
      ∧ hasKey (completeDegraded w d) "fallback" = false
      ∧ hasKey (completeDegraded w d) "fallback_tools" = true :=
  fun _ _ _ _ _ _ _ _ =>
    ⟨rfl, rfl, rfl, rfl, fun _ _ _ => rfl, rfl, rfl, rfl⟩

/-- C4: a returned row's measure appears in the discovered map exactly
when its name is non-empty and contains the agent-visible marker
`"_AI"`; on the scenario rows
`[{name:"Revenue_AI", description:"Total sales"},
{name:"Helper1", description:"internal"}]` only `Revenue_AI` is
returned, with category `revenue` and confidence `0.9`. -/
theorem C4_marker_filter :
    (∀ (rows : List Row) (w d : String) (st : MeasureMgrState)
       (fc : Option MeasureFileCache) (now : ℚ) (k : String),
      (alistLookup (discoverMeasuresFromModel (rowsClient rows) st fc w d false now).result
          k).isSome
        ↔ ∃ row ∈ rows, rowGet row "__def_Measures[Name]" = k
            ∧ k ≠ "" ∧ inStr "_AI" k = true)
    ∧ (discoverMeasuresFromModel (rowsClient scenarioRows) emptyMeasureState none
        "W" "D" false 0).result
      = [("Revenue_AI", ⟨"Revenue_AI", "Total sales", "revenue", 0.9, ["revenue"]⟩)] := by
  constructor
  · intro rows w d st fc now k
    have hres : (discoverMeasuresFromModel (rowsClient rows) st fc w d false now).result
        = parseMeasureRows rows := rfl
    rw [hres]
    unfold parseMeasureRows
    rw [parseMeasureRows_fold_key]
    simp [alistLookup]
  · rfl

/-- C4 witness: the scenario's marked measure is present in the map. -/
theorem C4_witness :
    (alistLookup (discoverMeasuresFromModel (rowsClient scenarioRows) emptyMeasureState none
      "W" "D" false 0).result "Revenue_AI").isSome :=
  (C4_marker_filter.1 scenarioRows "W" "D" emptyMeasureState none 0 "Revenue_AI").mpr
    ⟨[("__def_Measures[Name]", "Revenue_AI"), ("__def_Measures[Description]", "Total sales")],
     by simp [scenarioRows], by decide, by decide, by decide⟩

/-- C1 counterexample: an unexpired file cache (written at hour 0, read
at hour 1, well inside the 24-hour window) exists and `force_refresh`
is false, yet the discovery call still issues a remote metadata query
and does not return the cached content — the cache gate is disabled in
the source ("Cache disabled - always get fresh measures"). -/
theorem C1_counterexample :
    ((0 : ℚ) ≤ 1 ∧ (1 : ℚ) - 0 < 24)
    ∧ (discoverMeasuresFromModel (rowsClient []) emptyMeasureState (some freshMeasureCache)
        "W" "D" false 1).calls.any
        (fun c => match c with | .daxQuery _ _ _ => true | _ => false) = true
    ∧ (discoverMeasuresFromModel (rowsClient []) emptyMeasureState (some freshMeasureCache)
        "W" "D" false 1).result ≠ freshMeasureCache.measures := by
  refine ⟨⟨by norm_num, by norm_num⟩, by decide, by decide⟩

/-- C1 (amended): both discovery functions ignore `force_refresh` and
every cache: the returned map and the remote-call trace are the same
function of the client alone, and every call begins by issuing the
workspace lookup.  (The in-memory/file caches are only written on
success, never consulted.) -/
theorem C1_cache_gate_disabled :
    ∀ (client : PBIClient) (w d : String) (now : ℚ)
      (st₁ st₂ : MeasureMgrState) (fc₁ fc₂ : Option MeasureFileCache) (f₁ f₂ : Bool)
      (ss₁ ss₂ : SchemaMgrState) (sc₁ sc₂ : Option SchemaFileCache),
      ((discoverMeasuresFromModel client st₁ fc₁ w d f₁ now).result
          = (discoverMeasuresFromModel client st₂ fc₂ w d f₂ now).result
        ∧ (discoverMeasuresFromModel client st₁ fc₁ w d f₁ now).calls
          = (discoverMeasuresFromModel client st₂ fc₂ w d f₂ now).calls
        ∧ (discoverMeasuresFromModel client st₁ fc₁ w d f₁ now).calls.head?
          = some (.workspaceLookup w))
      ∧ ((discoverModelSchema client ss₁ sc₁ w d f₁ now).result
          = (discoverModelSchema client ss₂ sc₂ w d f₂ now).result
        ∧ (discoverModelSchema client ss₁ sc₁ w d f₁ now).calls
          = (discoverModelSchema client ss₂ sc₂ w d f₂ now).calls
        ∧ (discoverModelSchema client ss₁ sc₁ w d f₁ now).calls.head?
          = some (.workspaceLookup w)) := by
  intro client w d now st₁ st₂ fc₁ fc₂ f₁ f₂ ss₁ ss₂ sc₁ sc₂
  constructor
  · unfold discoverMeasuresFromModel
    cases hw : client.getWorkspaceByName w with
    | error e => exact ⟨rfl, rfl, rfl⟩
    | ok ws =>
      dsimp only
      cases hd : client.getDatasetByName ws.id d with
      | error e => exact ⟨rfl, rfl, rfl⟩
      | ok dsi =>
        dsimp only
        cases hm : client.executeDaxQuery ws.id dsi.id measuresQueryText with
        | error e => exact ⟨rfl, rfl, rfl⟩
        | ok mres =>
          dsimp only
          cases hidx : (parseMeasuresResult mres).2.2 <;> exact ⟨rfl, rfl, rfl⟩
  · unfold discoverModelSchema
    cases hw : client.getWorkspaceByName w with
    | error e => exact ⟨rfl, rfl, rfl⟩
    | ok ws =>
      dsimp only
      cases hd : client.getDatasetByName ws.id d with
      | error e => exact ⟨rfl, rfl, rfl⟩
      | ok dsi =>
        dsimp only
        cases ht : client.executeDaxQuery ws.id dsi.id tablesQueryText with
        | error e => exact ⟨rfl, rfl, rfl⟩
        | ok tres =>
          dsimp only
          cases hc : client.executeDaxQuery ws.id dsi.id columnsQueryText with
          | error e => exact ⟨rfl, rfl, rfl⟩
          | ok cres =>
            dsimp only
            cases hti : (parseTablesResult tres).2.2 with
            | true => exact ⟨rfl, rfl, rfl⟩
            | false => cases hci : (parseColumnsResult cres).2.2 <;> exact ⟨rfl, rfl, rfl⟩

/-- C8 counterexample: when every remote call fails, discovery does
return an empty map but logs no warning at all (the failure is logged
at error level); and when only an auxiliary context query fails, the
discovery returns a non-empty map — so "any remote-call failure yields
an empty map and a warning" fails on the code in both respects. -/
theorem C8_counterexample :
    ((discoverMeasuresFromModel failingClient emptyMeasureState none "W" "D" false 0).result = []
      ∧ (discoverMeasuresFromModel failingClient emptyMeasureState none "W" "D" false 0).logs.all
          (fun ev => ev.level != LogLevel.warning) = true)
    ∧ (discoverMeasuresFromModel (auxFailClient scenarioRows) emptyMeasureState none
        "W" "D" false 0).result ≠ [] := by
  exact ⟨⟨rfl, rfl⟩, by decide⟩

/-- C8 (amended): a failure of the workspace lookup, the dataset lookup
or the main metadata query makes the discovery operation (either
manager) return an empty map, log an error-level message, and leave its
state and cache file untouched — it absorbs the exception instead of
raising.  (Failures of the auxiliary measure-context queries are
absorbed with a non-critical warning and leave the discovered map
intact; see the counterexample.) -/
theorem C8_remote_failure_absorbed :
    ∀ (client : PBIClient) (st : MeasureMgrState) (fc : Option MeasureFileCache)
      (ss : SchemaMgrState) (sc : Option SchemaFileCache)
      (w d : String) (force : Bool) (now : ℚ) (e : String),
      (client.getWorkspaceByName w = .error e →
        (discoverMeasuresFromModel client st fc w d force now).result = []
        ∧ (discoverMeasuresFromModel client st fc w d force now).logs.any
            (fun ev => ev.level == LogLevel.error) = true
        ∧ (discoverMeasuresFromModel client st fc w d force now).state = st
        ∧ (discoverMeasuresFromModel client st fc w d force now).fileCache = fc
        ∧ (discoverModelSchema client ss sc w d force now).result = []
        ∧ (discoverModelSchema client ss sc w d force now).logs.any
            (fun ev => ev.level == LogLevel.error) = true
        ∧ (discoverModelSchema client ss sc w d force now).state = ss)
      ∧ (∀ ws, client.getWorkspaceByName w = .ok ws →
          client.getDatasetByName ws.id d = .error e →
          (discoverMeasuresFromModel client st fc w d force now).result = []
          ∧ (discoverMeasuresFromModel client st fc w d force now).logs.any
              (fun ev => ev.level == LogLevel.error) = true
          ∧ (discoverMeasuresFromModel client st fc w d force now).state = st
          ∧ (discoverModelSchema client ss sc w d force now).result = []
          ∧ (discoverModelSchema client ss sc w d force now).state = ss)
      ∧ (∀ ws dsi, client.getWorkspaceByName w = .ok ws →
          client.getDatasetByName ws.id d = .ok dsi →
          client.executeDaxQuery ws.id dsi.id measuresQueryText = .error e →
          (discoverMeasuresFromModel client st fc w d force now).result = []
          ∧ (discoverMeasuresFromModel client st fc w d force now).logs.any
              (fun ev => ev.level == LogLevel.error) = true
          ∧ (discoverMeasuresFromModel client st fc w d force now).state = st)
      ∧ (∀ ws dsi, client.getWorkspaceByName w = .ok ws →
          client.getDatasetByName ws.id d = .ok dsi →
          client.executeDaxQuery ws.id dsi.id tablesQueryText = .error e →
          (discoverModelSchema client ss sc w d force now).result = []
          ∧ (discoverModelSchema client ss sc w d force now).logs.any
              (fun ev => ev.level == LogLevel.error) = true
          ∧ (discoverModelSchema client ss sc w d force now).state = ss) := by
  intro client st fc ss sc w d force now e
  refine ⟨fun h => ?_, fun ws hws hd => ?_, fun ws dsi hws hd hm => ?_,
    fun ws dsi hws hd ht => ?_⟩
  · unfold discoverMeasuresFromModel discoverModelSchema
    rw [h]
    exact ⟨rfl, rfl, rfl, rfl, rfl, rfl, rfl⟩
  · unfold discoverMeasuresFromModel discoverModelSchema
    rw [hws]
    dsimp only
    rw [hd]
    exact ⟨rfl, rfl, rfl, rfl, rfl⟩
  · unfold discoverMeasuresFromModel
    rw [hws]
    dsimp only
    rw [hd]
    dsimp only
    rw [hm]
    exact ⟨rfl, rfl, rfl⟩
  · unfold discoverModelSchema
    rw [hws]
    dsimp only
    rw [hd]
    dsimp only
    rw [ht]
    exact ⟨rfl, rfl, rfl⟩

/-- C8 witness: the all-failing client instantiates the workspace-lookup
failure branch. -/
theorem C8_witness :
    (discoverMeasuresFromModel failingClient emptyMeasureState none "W" "D" false 0).result = []
    ∧ (discoverMeasuresFromModel failingClient emptyMeasureState none "W" "D" false 0).logs.any
        (fun ev => ev.level == LogLevel.error) = true
    ∧ (discoverModelSchema failingClient emptySchemaState none "W" "D" false 0).result = [] := by
  have h := (C8_remote_failure_absorbed failingClient emptyMeasureState none emptySchemaState
    none "W" "D" false 0 "connection failed").1 rfl
  exact ⟨h.1, h.2.1, h.2.2.2.2.1⟩

/-- C2: the context-cache TTL law.  For every context type, an entry
written at `T` and read at `T + Δ` through the cache primitives and the
cached measures-build path is served unchanged (same payload, same
content hash, hit count incremented) exactly when `Δ < 24` hours; at
`Δ ≥ 24` it is treated as absent, a fresh build runs, and the
newly written entry starts with hit count 0. -/
theorem C2_context_cache_ttl :
    ∀ (w d ctype : String) (p : Json) (mst : MeasureMgrState) (lastUpdated : String)
      (T Δ : ℚ), 0 ≤ Δ → c2Law w d ctype p mst lastUpdated T Δ := by
  intro w d ctype p mst lastUpdated T Δ _
  have hhit : ∀ (ct : String), Δ < 24 →
      getCachedContext (cacheContext [] w d ct p T) w d ct (T + Δ)
        = (some p, [c2HitEntry w d ct p T (T + Δ)]) := by
    intro ct hlt
    unfold cacheContext storeReplace getCachedContext
    dsimp only
    rw [List.find?_cons_of_pos]
    · dsimp only [List.map]
      rw [if_pos rfl]
      rfl
    · show ((getContextId ct w d) == (getContextId ct w d)
        && decide ((T + Δ) < (T + 24))) = true
      simp only [beq_self_eq_true, Bool.true_and]
      exact decide_eq_true (by linarith)
  have hmiss : ∀ (ct : String), 24 ≤ Δ →
      getCachedContext (cacheContext [] w d ct p T) w d ct (T + Δ)
        = (none, cacheContext [] w d ct p T) := by
    intro ct hge
    unfold cacheContext storeReplace getCachedContext
    dsimp only
    rw [List.find?_cons_of_neg, List.find?_nil]
    show ¬(((getContextId ct w d) == (getContextId ct w d)
        && decide ((T + Δ) < (T + 24))) = true)
    simp only [beq_self_eq_true, Bool.true_and]
    rw [decide_eq_false (by linarith : ¬(T + Δ < T + 24))]
    exact Bool.false_ne_true
  refine ⟨⟨hhit ctype, hmiss ctype⟩, fun hlt => ?_, fun hge => ?_⟩
  · unfold buildMeasuresContextCached buildContextCached
    rw [if_neg (by simp : ¬(false = true)), hhit "measures" hlt]
  · unfold buildMeasuresContextCached buildContextCached
    rw [if_neg (by simp : ¬(false = true)), hmiss "measures" hge]
    unfold buildMeasuresContext cacheContext storeReplace
    dsimp only
    rw [if_pos rfl]
    rfl

/-- C2 witness: a write at hour 0 read one hour later (and, through the
law's expired conjuncts, the behaviour at 25 hours is available from
the same instantiation with `Δ = 25`). -/
theorem C2_witness :
    ((0 : ℚ) ≤ 1 ∧ c2Law "W" "D" "measures" (Json.str "x") emptyMeasureState "t" 0 1)
    ∧ ((0 : ℚ) ≤ 25 ∧ c2Law "W" "D" "measures" (Json.str "x") emptyMeasureState "t" 0 25) :=
  ⟨⟨by norm_num,
    C2_context_cache_ttl "W" "D" "measures" (Json.str "x") emptyMeasureState "t" 0 1
      (by norm_num)⟩,
   ⟨by norm_num,
    C2_context_cache_ttl "W" "D" "measures" (Json.str "x") emptyMeasureState "t" 0 25
      (by norm_num)⟩⟩

/-- C3: `_categorize_table` computes exactly the specification's
weighted score — +0.4 for a fact/transaction/entry/line/journal name
indicator, +(0.3 + 0.1 × value-column count) when a column suggests a
measurable quantity, +0.2 for at least three identifier-like columns,
−0.3 for a dimension-indicator name, −0.1 for fewer than five columns —
with `is_fact = (score > 0.5)` and `confidence = clamp(score, 0.1, 1.0)`;
in particular `"Journals"` with columns Amount/Account Id/Contact
Id/Cost Center Id is a fact table with confidence at least 0.5, and
`"_Date"` with four columns none of which is value-like is not. -/
theorem C3_classify_table :
    (∀ (name : String) (cols : List String),
      categorizeTable name cols
        = (decide ((0.5 : ℚ) < specTableScore name cols),
           min (max (specTableScore name cols) 0.1) 1))
    ∧ ((categorizeTable "Journals" ["Amount", "Account Id", "Contact Id", "Cost Center Id"]).1
        = true
      ∧ (0.5 : ℚ) ≤ (categorizeTable "Journals"
          ["Amount", "Account Id", "Contact Id", "Cost Center Id"]).2)
    ∧ (∀ (cols : List String), cols.length = 4 →
        cols.all (fun c => !valueLikeColumn c) = true →
        (categorizeTable "_Date" cols).1 = false) := by
  have hscore : ∀ (name : String) (cols : List String),
      factScore name cols = specTableScore name cols := by
    intro name cols
    unfold factScore specTableScore
    dsimp only
    rw [show ((cols.map pyLower).filter (fun col =>
        ["amount", "value", "quantity", "balance"].any (fun ind => inStr ind col))).isEmpty
      = !((cols.map pyLower).any (fun col =>
        ["amount", "value", "quantity", "balance"].any (fun ind => inStr ind col)))
      from filter_isEmpty_eq_not_any _ _, Bool.not_not]
    split_ifs <;> ring
  refine ⟨fun name cols => ?_, ⟨?_, ?_⟩, fun cols hlen hall => ?_⟩
  · unfold categorizeTable
    rw [hscore]
  · show decide ((0.5 : ℚ) < factScore "Journals"
      ["Amount", "Account Id", "Contact Id", "Cost Center Id"]) = true
    rw [show factScore "Journals" ["Amount", "Account Id", "Contact Id", "Cost Center Id"]
        = 0 + 0.4 + (0.3 + ((1 : ℕ) : ℚ) * 0.1) + 0.2 - 0.1 from rfl]
    simp only [decide_eq_true_eq]
    norm_num
  · show (0.5 : ℚ) ≤ min (max (factScore "Journals"
      ["Amount", "Account Id", "Contact Id", "Cost Center Id"]) 0.1) 1
    rw [show factScore "Journals" ["Amount", "Account Id", "Contact Id", "Cost Center Id"]
        = 0 + 0.4 + (0.3 + ((1 : ℕ) : ℚ) * 0.1) + 0.2 - 0.1 from rfl]
    norm_num
  · have hfilter : (cols.map pyLower).filter (fun col =>
        ["amount", "value", "quantity", "balance"].any (fun ind => inStr ind col)) = [] := by
      rw [List.filter_eq_nil_iff]
      intro c' hc'
      obtain ⟨c, hc, rfl⟩ := List.mem_map.mp hc'
      have hv := List.all_eq_true.mp hall c hc
      simp only [Bool.not_eq_true'] at hv
      simpa [valueLikeColumn] using hv
    show decide ((0.5 : ℚ) < factScore "_Date" cols) = false
    rw [decide_eq_false_iff_not]
    unfold factScore
    dsimp only
    rw [hfilter, hlen]
    have hfact : (["journal", "transaction", "entry", "line", "fact"].any
        (fun ind => inStr ind (pyLower "_Date"))) = false := by decide
    have hdim : (["dim", "_date", "_period", "account", "contact", "mapping"].any
        (fun ind => inStr ind (pyLower "_Date"))) = true := by decide
    rw [hfact, hdim]
    simp only [List.isEmpty_nil, Bool.not_true, if_false, if_true]
    by_cases hid : 3 ≤ ((cols.map pyLower).filter idLikeColumn).length
    · rw [if_pos hid]
      norm_num
    · rw [if_neg hid]
      norm_num

/-- C3 witness: a four-column `_Date` table with no value-like column. -/
theorem C3_witness :
    (["Date", "Year", "Month", "Quarter"] : List String).length = 4
    ∧ (["Date", "Year", "Month", "Quarter"] : List String).all
        (fun c => !valueLikeColumn c) = true
    ∧ (categorizeTable "_Date" ["Date", "Year", "Month", "Quarter"]).1 = false :=
  ⟨by decide, by decide,
   C3_classify_table.2.2 ["Date", "Year", "Month", "Quarter"] (by decide) (by decide)⟩

/-- C5 counterexample: two measures-context builds from identical
classifier outputs (the same empty manager state) but at successive
clock readings produce different `content_hash` values, because the
build embeds `last_updated = datetime.now()` into the hashed payload. -/
theorem C5_counterexample :
    contentHash (buildMeasuresContext emptyMeasureState "FinanceWS" "FinanceDS"
        "2024-01-01T00:00:00" 0 []).1
      ≠ contentHash (buildMeasuresContext emptyMeasureState "FinanceWS" "FinanceDS"
        "2024-01-01T00:00:01" 0 []).1 := by
  decide
